import Mathlib

/-!
Shallow embedding of the document-operation layer of an ArangoDB Rust client
(`src/document/methods.rs`): the eight operation descriptors (GetDocument,
GetDocumentHeader, InsertDocument, InsertDocumentReturnNew, InsertDocuments,
InsertDocumentsReturnNew, ReplaceDocument, UpdateDocument) together with
their `Prepare` functions (operation, path, parameters, header, content),
their `with_*` builder modifiers, getters, and the `Method` return-type
declaration.  Support types that the source file imports from sibling
modules (`api::method`, `arango::protocol`, `super::types`) are modelled
from the specification.
-/

namespace ArangoDoc

/-- Modelled from the spec: the wire-level protocol literals imported from
`arango::protocol` (not part of the analysed source file).  §6 of the spec
fixes the query-parameter names "returnNew", "returnOld", "waitForSync",
"ignoreRevs", "keepNull", "mergeObjects", the header names "If-Match" and
"If-None-Match", a fixed status-field literal and a fixed API root for
document resources. -/
def PARAM_RETURN_NEW : String := "returnNew"

def PARAM_RETURN_OLD : String := "returnOld"

def PARAM_WAIT_FOR_SYNC : String := "waitForSync"

def PARAM_IGNORE_REVISIONS : String := "ignoreRevs"

def PARAM_KEEP_NULL : String := "keepNull"

def PARAM_MERGE_OBJECTS : String := "mergeObjects"

def HEADER_IF_MATCH : String := "If-Match"

def HEADER_IF_NON_MATCH : String := "If-None-Match"

/-- Modelled from the spec: the fixed status-code field literal
(`FIELD_CODE` in `arango::protocol`). -/
def FIELD_CODE : String := "code"

/-- Modelled from the spec: the fixed literal API root for document
resources (`PATH_API_DOCUMENT` in `arango::protocol`). -/
def PATH_API_DOCUMENT : String := "/_api/document"

/-- Modelled from the spec: `DocumentId` from `super::types` identifies a
document by (collection name, key) and renders to the canonical
"collection/key" textual form used verbatim in request paths (§3, §4.1). -/
structure DocumentId where
  collectionName : String
  documentKey : String
deriving Repr, DecidableEq

def DocumentId.new (collectionName documentKey : String) : DocumentId :=
  ⟨collectionName, documentKey⟩

def DocumentId.render (id : DocumentId) : String :=
  id.collectionName ++ "/" ++ id.documentKey

/-- Modelled from the spec: `NewDocument<T>` from `super::types` is the
payload for create: {optional key, content T} (§3). -/
structure NewDocument (T : Type) where
  key : Option String
  content : T
deriving Repr, DecidableEq

/-- Modelled from the spec: `DocumentUpdate<T>` from `super::types` is the
payload for replace/modify: {content T} (§3). -/
structure DocumentUpdate (T : Type) where
  content : T
deriving Repr, DecidableEq

/-- A value stored in a `Parameters` mapping: the document layer only ever
inserts booleans (query parameters) and strings (header values). -/
inductive ParamValue where
  | bool (b : Bool)
  | str (s : String)
deriving Repr, DecidableEq

/-- Modelled from the spec: `Parameters` from `api::method`, an ordered
mapping built by starting empty and conditionally inserting one entry per
optional modifier that was explicitly set (§4.3).  Represented as the
ordered list of (name, value) entries. -/
abbrev Parameters : Type := List (String × ParamValue)

def Parameters.empty : Parameters := []

def Parameters.new : Parameters := []

/-- Appends one entry at the end of the ordered mapping. -/
def Parameters.insert (p : Parameters) (name : String) (v : ParamValue) :
    Parameters :=
  p ++ [(name, v)]

/-- The value carried by the first entry with the given name, if any. -/
def Parameters.get : Parameters → String → Option ParamValue
  | [], _ => none
  | (k, v) :: rest, name =>
      if k = name then some v else Parameters.get rest name

/-- How many entries of the mapping carry the given name. -/
def Parameters.countKey : Parameters → String → Nat
  | [], _ => 0
  | (k, _) :: rest, name =>
      (if k = name then 1 else 0) + Parameters.countKey rest name

/-- The ordered list of names appearing in the mapping. -/
def Parameters.names (p : Parameters) : List String :=
  p.map Prod.fst

/-- `Operation` from `api::method`: the operation kind exposed to the
dispatcher; the spec (§4.3) fixes the five kinds
{read, read-header, create, replace, modify}. -/
inductive Operation where
  | Read
  | ReadHeader
  | Create
  | Replace
  | Modify
deriving Repr, DecidableEq

/-- `RpcReturnType` from `api::method`: the response-shape declaration with
its two independent slots (§4.2): which response field holds the result
payload, and which holds the status code. -/
structure RpcReturnType where
  result_field : Option String
  code_field : Option String
deriving Repr, DecidableEq

/-! ### GetDocument -/

/-- `GetDocument<T>` (methods.rs lines 15-21); the `PhantomData<T>` marker
field has no runtime content and is dropped. -/
structure GetDocument (T : Type) where
  id : DocumentId
  if_match : Option String
  if_non_match : Option String
deriving Repr, DecidableEq

def GetDocument.new (T : Type) (id : DocumentId) : GetDocument T :=
  { id := id, if_match := none, if_non_match := none }

def GetDocument.with_if_match (g : GetDocument T) (m : Option String) :
    GetDocument T :=
  { g with if_match := m }

def GetDocument.with_if_non_match (g : GetDocument T) (m : Option String) :
    GetDocument T :=
  { g with if_non_match := m }

def GetDocument.RETURN_TYPE : RpcReturnType :=
  { result_field := none, code_field := some FIELD_CODE }

def GetDocument.operation (_ : GetDocument T) : Operation :=
  Operation.Read

def GetDocument.path (g : GetDocument T) : String :=
  PATH_API_DOCUMENT ++ "/" ++ g.id.render

def GetDocument.parameters (_ : GetDocument T) : Parameters :=
  Parameters.empty

def GetDocument.header (g : GetDocument T) : Parameters :=
  let header := Parameters.new
  let header := match g.if_match with
    | some m => header.insert HEADER_IF_MATCH (ParamValue.str m)
    | none => header
  let header := match g.if_non_match with
    | some m => header.insert HEADER_IF_NON_MATCH (ParamValue.str m)
    | none => header
  header

def GetDocument.content (_ : GetDocument T) : Option Unit :=
  none

/-! ### GetDocumentHeader -/

/-- `GetDocumentHeader` (methods.rs lines 101-106). -/
structure GetDocumentHeader where
  id : DocumentId
  if_match : Option String
  if_non_match : Option String
deriving Repr, DecidableEq

def GetDocumentHeader.new (id : DocumentId) : GetDocumentHeader :=
  { id := id, if_match := none, if_non_match := none }

def GetDocumentHeader.with_if_match (g : GetDocumentHeader)
    (m : Option String) : GetDocumentHeader :=
  { g with if_match := m }

def GetDocumentHeader.with_if_non_match (g : GetDocumentHeader)
    (m : Option String) : GetDocumentHeader :=
  { g with if_non_match := m }

def GetDocumentHeader.RETURN_TYPE : RpcReturnType :=
  { result_field := none, code_field := some FIELD_CODE }

def GetDocumentHeader.operation (_ : GetDocumentHeader) : Operation :=
  Operation.ReadHeader

def GetDocumentHeader.path (g : GetDocumentHeader) : String :=
  PATH_API_DOCUMENT ++ "/" ++ g.id.render

def GetDocumentHeader.parameters (_ : GetDocumentHeader) : Parameters :=
  Parameters.empty

def GetDocumentHeader.header (g : GetDocumentHeader) : Parameters :=
  let header := Parameters.new
  let header := match g.if_match with
    | some m => header.insert HEADER_IF_MATCH (ParamValue.str m)
    | none => header
  let header := match g.if_non_match with
    | some m => header.insert HEADER_IF_NON_MATCH (ParamValue.str m)
    | none => header
  header

def GetDocumentHeader.content (_ : GetDocumentHeader) : Option Unit :=
  none

/-! ### InsertDocument -/

/-- `InsertDocument<T>` (methods.rs lines 183-188). -/
structure InsertDocument (T : Type) where
  collection_name : String
  document : NewDocument T
  force_wait_for_sync : Option Bool
deriving Repr, DecidableEq

def InsertDocument.new (collection_name : String) (document : NewDocument T) :
    InsertDocument T :=
  { collection_name := collection_name, document := document,
    force_wait_for_sync := none }

def InsertDocument.with_force_wait_for_sync (d : InsertDocument T)
    (w : Option Bool) : InsertDocument T :=
  { d with force_wait_for_sync := w }

def InsertDocument.is_force_wait_for_sync (d : InsertDocument T) :
    Option Bool :=
  d.force_wait_for_sync

def InsertDocument.RETURN_TYPE : RpcReturnType :=
  { result_field := none, code_field := some FIELD_CODE }

def InsertDocument.operation (_ : InsertDocument T) : Operation :=
  Operation.Create

def InsertDocument.path (d : InsertDocument T) : String :=
  PATH_API_DOCUMENT ++ "/" ++ d.collection_name

def InsertDocument.parameters (d : InsertDocument T) : Parameters :=
  let params := Parameters.new
  let params := params.insert PARAM_RETURN_NEW (ParamValue.bool false)
  let params := match d.force_wait_for_sync with
    | some w => params.insert PARAM_WAIT_FOR_SYNC (ParamValue.bool w)
    | none => params
  params

def InsertDocument.header (_ : InsertDocument T) : Parameters :=
  Parameters.empty

def InsertDocument.content (d : InsertDocument T) : Option (NewDocument T) :=
  some d.document

/-! ### InsertDocumentReturnNew -/

/-- `InsertDocumentReturnNew<T>` (methods.rs lines 262-267). -/
structure InsertDocumentReturnNew (T : Type) where
  collection_name : String
  document : NewDocument T
  force_wait_for_sync : Option Bool
deriving Repr, DecidableEq

def InsertDocumentReturnNew.new (collection_name : String)
    (document : NewDocument T) : InsertDocumentReturnNew T :=
  { collection_name := collection_name, document := document,
    force_wait_for_sync := none }

def InsertDocumentReturnNew.with_force_wait_for_sync
    (d : InsertDocumentReturnNew T) (w : Option Bool) :
    InsertDocumentReturnNew T :=
  { d with force_wait_for_sync := w }

def InsertDocumentReturnNew.is_force_wait_for_sync
    (d : InsertDocumentReturnNew T) : Option Bool :=
  d.force_wait_for_sync

def InsertDocumentReturnNew.RETURN_TYPE : RpcReturnType :=
  { result_field := none, code_field := some FIELD_CODE }

def InsertDocumentReturnNew.operation (_ : InsertDocumentReturnNew T) :
    Operation :=
  Operation.Create

def InsertDocumentReturnNew.path (d : InsertDocumentReturnNew T) : String :=
  PATH_API_DOCUMENT ++ "/" ++ d.collection_name

def InsertDocumentReturnNew.parameters (d : InsertDocumentReturnNew T) :
    Parameters :=
  let params := Parameters.new
  let params := params.insert PARAM_RETURN_NEW (ParamValue.bool true)
  let params := match d.force_wait_for_sync with
    | some w => params.insert PARAM_WAIT_FOR_SYNC (ParamValue.bool w)
    | none => params
  params

def InsertDocumentReturnNew.header (_ : InsertDocumentReturnNew T) :
    Parameters :=
  Parameters.empty

def InsertDocumentReturnNew.content (d : InsertDocumentReturnNew T) :
    Option (NewDocument T) :=
  some d.document

/-! ### InsertDocuments -/

/-- `InsertDocuments<T>` (methods.rs lines 341-346). -/
structure InsertDocuments (T : Type) where
  collection_name : String
  documents : List (NewDocument T)
  force_wait_for_sync : Option Bool
deriving Repr, DecidableEq

def InsertDocuments.new (collection_name : String)
    (documents : List (NewDocument T)) : InsertDocuments T :=
  { collection_name := collection_name, documents := documents,
    force_wait_for_sync := none }

def InsertDocuments.with_force_wait_for_sync (d : InsertDocuments T)
    (w : Option Bool) : InsertDocuments T :=
  { d with force_wait_for_sync := w }

def InsertDocuments.is_force_wait_for_sync (d : InsertDocuments T) :
    Option Bool :=
  d.force_wait_for_sync

def InsertDocuments.RETURN_TYPE : RpcReturnType :=
  { result_field := none, code_field := some FIELD_CODE }

def InsertDocuments.operation (_ : InsertDocuments T) : Operation :=
  Operation.Create

def InsertDocuments.path (d : InsertDocuments T) : String :=
  PATH_API_DOCUMENT ++ "/" ++ d.collection_name

def InsertDocuments.parameters (d : InsertDocuments T) : Parameters :=
  let params := Parameters.new
  let params := params.insert PARAM_RETURN_NEW (ParamValue.bool false)
  let params := match d.force_wait_for_sync with
    | some w => params.insert PARAM_WAIT_FOR_SYNC (ParamValue.bool w)
    | none => params
  params

def InsertDocuments.header (_ : InsertDocuments T) : Parameters :=
  Parameters.empty

def InsertDocuments.content (d : InsertDocuments T) :
    Option (List (NewDocument T)) :=
  some d.documents

/-! ### InsertDocumentsReturnNew -/

/-- `InsertDocumentsReturnNew<T>` (methods.rs lines 420-425). -/
structure InsertDocumentsReturnNew (T : Type) where
  collection_name : String
  documents : List (NewDocument T)
  force_wait_for_sync : Option Bool
deriving Repr, DecidableEq

def InsertDocumentsReturnNew.new (collection_name : String)
    (documents : List (NewDocument T)) : InsertDocumentsReturnNew T :=
  { collection_name := collection_name, documents := documents,
    force_wait_for_sync := none }

def InsertDocumentsReturnNew.with_force_wait_for_sync
    (d : InsertDocumentsReturnNew T) (w : Option Bool) :
    InsertDocumentsReturnNew T :=
  { d with force_wait_for_sync := w }

def InsertDocumentsReturnNew.is_force_wait_for_sync
    (d : InsertDocumentsReturnNew T) : Option Bool :=
  d.force_wait_for_sync

def InsertDocumentsReturnNew.RETURN_TYPE : RpcReturnType :=
  { result_field := none, code_field := some FIELD_CODE }

def InsertDocumentsReturnNew.operation (_ : InsertDocumentsReturnNew T) :
    Operation :=
  Operation.Create

def InsertDocumentsReturnNew.path (d : InsertDocumentsReturnNew T) : String :=
  PATH_API_DOCUMENT ++ "/" ++ d.collection_name

def InsertDocumentsReturnNew.parameters (d : InsertDocumentsReturnNew T) :
    Parameters :=
  let params := Parameters.new
  let params := params.insert PARAM_RETURN_NEW (ParamValue.bool true)
  let params := match d.force_wait_for_sync with
    | some w => params.insert PARAM_WAIT_FOR_SYNC (ParamValue.bool w)
    | none => params
  params

def InsertDocumentsReturnNew.header (_ : InsertDocumentsReturnNew T) :
    Parameters :=
  Parameters.empty

def InsertDocumentsReturnNew.content (d : InsertDocumentsReturnNew T) :
    Option (List (NewDocument T)) :=
  some d.documents

/-! ### ReplaceDocument -/

/-- `ReplaceDocument<Old, New>` (methods.rs lines 499-509); the
`PhantomData<Old>` marker field has no runtime content and is dropped. -/
structure ReplaceDocument (Old New : Type) where
  document_id : DocumentId
  new_document : DocumentUpdate New
  force_wait_for_sync : Option Bool
  ignore_revisions : Option Bool
  if_match : Option String
  return_old : Option Bool
  return_new : Option Bool
deriving Repr, DecidableEq

def ReplaceDocument.new (Old : Type) (document_id : DocumentId)
    (new_document : DocumentUpdate New) : ReplaceDocument Old New :=
  { document_id := document_id, new_document := new_document,
    force_wait_for_sync := none, ignore_revisions := none,
    if_match := none, return_old := none, return_new := none }

def ReplaceDocument.with_force_wait_for_sync (r : ReplaceDocument Old New)
    (w : Option Bool) : ReplaceDocument Old New :=
  { r with force_wait_for_sync := w }

def ReplaceDocument.with_ignore_revisions (r : ReplaceDocument Old New)
    (v : Option Bool) : ReplaceDocument Old New :=
  { r with ignore_revisions := v }

def ReplaceDocument.with_if_match (r : ReplaceDocument Old New)
    (m : Option String) : ReplaceDocument Old New :=
  { r with if_match := m }

def ReplaceDocument.with_return_old (r : ReplaceDocument Old New)
    (v : Option Bool) : ReplaceDocument Old New :=
  { r with return_old := v }

def ReplaceDocument.with_return_new (r : ReplaceDocument Old New)
    (v : Option Bool) : ReplaceDocument Old New :=
  { r with return_new := v }

def ReplaceDocument.RETURN_TYPE : RpcReturnType :=
  { result_field := none, code_field := some FIELD_CODE }

def ReplaceDocument.operation (_ : ReplaceDocument Old New) : Operation :=
  Operation.Replace

def ReplaceDocument.path (r : ReplaceDocument Old New) : String :=
  PATH_API_DOCUMENT ++ "/" ++ r.document_id.render

def ReplaceDocument.parameters (r : ReplaceDocument Old New) : Parameters :=
  let params := Parameters.new
  let params := match r.force_wait_for_sync with
    | some w => params.insert PARAM_WAIT_FOR_SYNC (ParamValue.bool w)
    | none => params
  let params := match r.ignore_revisions with
    | some v => params.insert PARAM_IGNORE_REVISIONS (ParamValue.bool v)
    | none => params
  let params := match r.return_old with
    | some v => params.insert PARAM_RETURN_OLD (ParamValue.bool v)
    | none => params
  let params := match r.return_new with
    | some v => params.insert PARAM_RETURN_NEW (ParamValue.bool v)
    | none => params
  params

def ReplaceDocument.header (r : ReplaceDocument Old New) : Parameters :=
  let header := Parameters.new
  let header := match r.if_match with
    | some m => header.insert HEADER_IF_MATCH (ParamValue.str m)
    | none => header
  header

def ReplaceDocument.content (r : ReplaceDocument Old New) :
    Option (DocumentUpdate New) :=
  some r.new_document

/-! ### UpdateDocument -/

/-- `UpdateDocument<Upd, Old, New>` (methods.rs lines 634-647); the
`PhantomData<Old>` and `PhantomData<New>` marker fields have no runtime
content and are dropped. -/
structure UpdateDocument (Upd Old New : Type) where
  document_id : DocumentId
  update : DocumentUpdate Upd
  force_wait_for_sync : Option Bool
  ignore_revisions : Option Bool
  if_match : Option String
  keep_none : Option Bool
  merge_objects : Option Bool
  return_old : Option Bool
  return_new : Option Bool
deriving Repr, DecidableEq

def UpdateDocument.new (Old New : Type) (document_id : DocumentId)
    (update : DocumentUpdate Upd) : UpdateDocument Upd Old New :=
  { document_id := document_id, update := update,
    force_wait_for_sync := none, ignore_revisions := none,
    if_match := none, keep_none := none, merge_objects := none,
    return_old := none, return_new := none }

def UpdateDocument.with_force_wait_for_sync
    (u : UpdateDocument Upd Old New) (w : Option Bool) :
    UpdateDocument Upd Old New :=
  { u with force_wait_for_sync := w }

def UpdateDocument.with_ignore_revisions (u : UpdateDocument Upd Old New)
    (v : Option Bool) : UpdateDocument Upd Old New :=
  { u with ignore_revisions := v }

def UpdateDocument.with_if_match (u : UpdateDocument Upd Old New)
    (m : Option String) : UpdateDocument Upd Old New :=
  { u with if_match := m }

def UpdateDocument.with_keep_none (u : UpdateDocument Upd Old New)
    (v : Option Bool) : UpdateDocument Upd Old New :=
  { u with keep_none := v }

def UpdateDocument.with_merge_objects (u : UpdateDocument Upd Old New)
    (v : Option Bool) : UpdateDocument Upd Old New :=
  { u with merge_objects := v }

def UpdateDocument.with_return_old (u : UpdateDocument Upd Old New)
    (v : Option Bool) : UpdateDocument Upd Old New :=
  { u with return_old := v }

def UpdateDocument.with_return_new (u : UpdateDocument Upd Old New)
    (v : Option Bool) : UpdateDocument Upd Old New :=
  { u with return_new := v }

def UpdateDocument.RETURN_TYPE : RpcReturnType :=
  { result_field := none, code_field := some FIELD_CODE }

def UpdateDocument.operation (_ : UpdateDocument Upd Old New) : Operation :=
  Operation.Modify

def UpdateDocument.path (u : UpdateDocument Upd Old New) : String :=
  PATH_API_DOCUMENT ++ "/" ++ u.document_id.render

def UpdateDocument.parameters (u : UpdateDocument Upd Old New) : Parameters :=
  let params := Parameters.new
  let params := match u.force_wait_for_sync with
    | some w => params.insert PARAM_WAIT_FOR_SYNC (ParamValue.bool w)
    | none => params
  let params := match u.ignore_revisions with
    | some v => params.insert PARAM_IGNORE_REVISIONS (ParamValue.bool v)
    | none => params
  let params := match u.keep_none with
    | some v => params.insert PARAM_KEEP_NULL (ParamValue.bool v)
    | none => params
  let params := match u.merge_objects with
    | some v => params.insert PARAM_MERGE_OBJECTS (ParamValue.bool v)
    | none => params
  let params := match u.return_old with
    | some v => params.insert PARAM_RETURN_OLD (ParamValue.bool v)
    | none => params
  let params := match u.return_new with
    | some v => params.insert PARAM_RETURN_NEW (ParamValue.bool v)
    | none => params
  params

def UpdateDocument.header (u : UpdateDocument Upd Old New) : Parameters :=
  let header := Parameters.new
  let header := match u.if_match with
    | some m => header.insert HEADER_IF_MATCH (ParamValue.str m)
    | none => header
  header

def UpdateDocument.content (u : UpdateDocument Upd Old New) :
    Option (DocumentUpdate Upd) :=
  some u.update

/-! ### Characterization lemmas for the produced parameter mappings

Each lemma relates a lookup (or key-count) on the mapping built by
`parameters`/`header` to the optional field that feeds it. -/

section Characterization

variable {T Upd Old New : Type}

lemma UpdateDocument.upd_parameters_get_wait_for_sync
    (u : UpdateDocument Upd Old New) :
    u.parameters.get PARAM_WAIT_FOR_SYNC =
      u.force_wait_for_sync.map ParamValue.bool := by
  rcases u with ⟨id, upd, fws, ir, im, kn, mo, ro, rn⟩
  rcases fws with _ | w <;> rcases ir with _ | a <;> rcases kn with _ | b <;>
    rcases mo with _ | c <;> rcases ro with _ | d <;> rcases rn with _ | e <;>
    simp [UpdateDocument.parameters, Parameters.new, Parameters.insert,
      Parameters.get, PARAM_WAIT_FOR_SYNC, PARAM_IGNORE_REVISIONS,
      PARAM_KEEP_NULL, PARAM_MERGE_OBJECTS, PARAM_RETURN_OLD,
      PARAM_RETURN_NEW]

lemma UpdateDocument.upd_parameters_count_wait_for_sync
    (u : UpdateDocument Upd Old New) :
    u.parameters.countKey PARAM_WAIT_FOR_SYNC =
      (if u.force_wait_for_sync.isSome then 1 else 0) := by
  rcases u with ⟨id, upd, fws, ir, im, kn, mo, ro, rn⟩
  rcases fws with _ | w <;> rcases ir with _ | a <;> rcases kn with _ | b <;>
    rcases mo with _ | c <;> rcases ro with _ | d <;> rcases rn with _ | e <;>
    simp [UpdateDocument.parameters, Parameters.new, Parameters.insert,
      Parameters.countKey, PARAM_WAIT_FOR_SYNC, PARAM_IGNORE_REVISIONS,
      PARAM_KEEP_NULL, PARAM_MERGE_OBJECTS, PARAM_RETURN_OLD,
      PARAM_RETURN_NEW]

lemma UpdateDocument.upd_parameters_get_ignore_revisions
    (u : UpdateDocument Upd Old New) :
    u.parameters.get PARAM_IGNORE_REVISIONS =
      u.ignore_revisions.map ParamValue.bool := by
  rcases u with ⟨id, upd, fws, ir, im, kn, mo, ro, rn⟩
  rcases fws with _ | w <;> rcases ir with _ | a <;> rcases kn with _ | b <;>
    rcases mo with _ | c <;> rcases ro with _ | d <;> rcases rn with _ | e <;>
    simp [UpdateDocument.parameters, Parameters.new, Parameters.insert,
      Parameters.get, PARAM_WAIT_FOR_SYNC, PARAM_IGNORE_REVISIONS,
      PARAM_KEEP_NULL, PARAM_MERGE_OBJECTS, PARAM_RETURN_OLD,
      PARAM_RETURN_NEW]

lemma UpdateDocument.upd_parameters_count_ignore_revisions
    (u : UpdateDocument Upd Old New) :
    u.parameters.countKey PARAM_IGNORE_REVISIONS =
      (if u.ignore_revisions.isSome then 1 else 0) := by
  rcases u with ⟨id, upd, fws, ir, im, kn, mo, ro, rn⟩
  rcases fws with _ | w <;> rcases ir with _ | a <;> rcases kn with _ | b <;>
    rcases mo with _ | c <;> rcases ro with _ | d <;> rcases rn with _ | e <;>
    simp [UpdateDocument.parameters, Parameters.new, Parameters.insert,
      Parameters.countKey, PARAM_WAIT_FOR_SYNC, PARAM_IGNORE_REVISIONS,
      PARAM_KEEP_NULL, PARAM_MERGE_OBJECTS, PARAM_RETURN_OLD,
      PARAM_RETURN_NEW]

lemma UpdateDocument.upd_parameters_get_keep_null
    (u : UpdateDocument Upd Old New) :
    u.parameters.get PARAM_KEEP_NULL = u.keep_none.map ParamValue.bool := by
  rcases u with ⟨id, upd, fws, ir, im, kn, mo, ro, rn⟩
  rcases fws with _ | w <;> rcases ir with _ | a <;> rcases kn with _ | b <;>
    rcases mo with _ | c <;> rcases ro with _ | d <;> rcases rn with _ | e <;>
    simp [UpdateDocument.parameters, Parameters.new, Parameters.insert,
      Parameters.get, PARAM_WAIT_FOR_SYNC, PARAM_IGNORE_REVISIONS,
      PARAM_KEEP_NULL, PARAM_MERGE_OBJECTS, PARAM_RETURN_OLD,
      PARAM_RETURN_NEW]

lemma UpdateDocument.upd_parameters_count_keep_null
    (u : UpdateDocument Upd Old New) :
    u.parameters.countKey PARAM_KEEP_NULL =
      (if u.keep_none.isSome then 1 else 0) := by
  rcases u with ⟨id, upd, fws, ir, im, kn, mo, ro, rn⟩
  rcases fws with _ | w <;> rcases ir with _ | a <;> rcases kn with _ | b <;>
    rcases mo with _ | c <;> rcases ro with _ | d <;> rcases rn with _ | e <;>
    simp [UpdateDocument.parameters, Parameters.new, Parameters.insert,
      Parameters.countKey, PARAM_WAIT_FOR_SYNC, PARAM_IGNORE_REVISIONS,
      PARAM_KEEP_NULL, PARAM_MERGE_OBJECTS, PARAM_RETURN_OLD,
      PARAM_RETURN_NEW]

lemma UpdateDocument.upd_parameters_get_merge_objects
    (u : UpdateDocument Upd Old New) :
    u.parameters.get PARAM_MERGE_OBJECTS =
      u.merge_objects.map ParamValue.bool := by
  rcases u with ⟨id, upd, fws, ir, im, kn, mo, ro, rn⟩
  rcases fws with _ | w <;> rcases ir with _ | a <;> rcases kn with _ | b <;>
    rcases mo with _ | c <;> rcases ro with _ | d <;> rcases rn with _ | e <;>
    simp [UpdateDocument.parameters, Parameters.new, Parameters.insert,
      Parameters.get, PARAM_WAIT_FOR_SYNC, PARAM_IGNORE_REVISIONS,
      PARAM_KEEP_NULL, PARAM_MERGE_OBJECTS, PARAM_RETURN_OLD,
      PARAM_RETURN_NEW]

lemma UpdateDocument.upd_parameters_count_merge_objects
    (u : UpdateDocument Upd Old New) :
    u.parameters.countKey PARAM_MERGE_OBJECTS =
      (if u.merge_objects.isSome then 1 else 0) := by
  rcases u with ⟨id, upd, fws, ir, im, kn, mo, ro, rn⟩
  rcases fws with _ | w <;> rcases ir with _ | a <;> rcases kn with _ | b <;>
    rcases mo with _ | c <;> rcases ro with _ | d <;> rcases rn with _ | e <;>
    simp [UpdateDocument.parameters, Parameters.new, Parameters.insert,
      Parameters.countKey, PARAM_WAIT_FOR_SYNC, PARAM_IGNORE_REVISIONS,
      PARAM_KEEP_NULL, PARAM_MERGE_OBJECTS, PARAM_RETURN_OLD,
      PARAM_RETURN_NEW]

lemma UpdateDocument.upd_parameters_get_return_old
    (u : UpdateDocument Upd Old New) :
    u.parameters.get PARAM_RETURN_OLD = u.return_old.map ParamValue.bool := by
  rcases u with ⟨id, upd, fws, ir, im, kn, mo, ro, rn⟩
  rcases fws with _ | w <;> rcases ir with _ | a <;> rcases kn with _ | b <;>
    rcases mo with _ | c <;> rcases ro with _ | d <;> rcases rn with _ | e <;>
    simp [UpdateDocument.parameters, Parameters.new, Parameters.insert,
      Parameters.get, PARAM_WAIT_FOR_SYNC, PARAM_IGNORE_REVISIONS,
      PARAM_KEEP_NULL, PARAM_MERGE_OBJECTS, PARAM_RETURN_OLD,
      PARAM_RETURN_NEW]

lemma UpdateDocument.upd_parameters_count_return_old
    (u : UpdateDocument Upd Old New) :
    u.parameters.countKey PARAM_RETURN_OLD =
      (if u.return_old.isSome then 1 else 0) := by
  rcases u with ⟨id, upd, fws, ir, im, kn, mo, ro, rn⟩
  rcases fws with _ | w <;> rcases ir with _ | a <;> rcases kn with _ | b <;>
    rcases mo with _ | c <;> rcases ro with _ | d <;> rcases rn with _ | e <;>
    simp [UpdateDocument.parameters, Parameters.new, Parameters.insert,
      Parameters.countKey, PARAM_WAIT_FOR_SYNC, PARAM_IGNORE_REVISIONS,
      PARAM_KEEP_NULL, PARAM_MERGE_OBJECTS, PARAM_RETURN_OLD,
      PARAM_RETURN_NEW]

lemma UpdateDocument.upd_parameters_get_return_new
    (u : UpdateDocument Upd Old New) :
    u.parameters.get PARAM_RETURN_NEW = u.return_new.map ParamValue.bool := by
  rcases u with ⟨id, upd, fws, ir, im, kn, mo, ro, rn⟩
  rcases fws with _ | w <;> rcases ir with _ | a <;> rcases kn with _ | b <;>
    rcases mo with _ | c <;> rcases ro with _ | d <;> rcases rn with _ | e <;>
    simp [UpdateDocument.parameters, Parameters.new, Parameters.insert,
      Parameters.get, PARAM_WAIT_FOR_SYNC, PARAM_IGNORE_REVISIONS,
      PARAM_KEEP_NULL, PARAM_MERGE_OBJECTS, PARAM_RETURN_OLD,
      PARAM_RETURN_NEW]

lemma UpdateDocument.upd_parameters_count_return_new
    (u : UpdateDocument Upd Old New) :
    u.parameters.countKey PARAM_RETURN_NEW =
      (if u.return_new.isSome then 1 else 0) := by
  rcases u with ⟨id, upd, fws, ir, im, kn, mo, ro, rn⟩
  rcases fws with _ | w <;> rcases ir with _ | a <;> rcases kn with _ | b <;>
    rcases mo with _ | c <;> rcases ro with _ | d <;> rcases rn with _ | e <;>
    simp [UpdateDocument.parameters, Parameters.new, Parameters.insert,
      Parameters.countKey, PARAM_WAIT_FOR_SYNC, PARAM_IGNORE_REVISIONS,
      PARAM_KEEP_NULL, PARAM_MERGE_OBJECTS, PARAM_RETURN_OLD,
      PARAM_RETURN_NEW]

lemma UpdateDocument.upd_header_get_if_match (u : UpdateDocument Upd Old New) :
    u.header.get HEADER_IF_MATCH = u.if_match.map ParamValue.str := by
  rcases u with ⟨id, upd, fws, ir, im, kn, mo, ro, rn⟩
  rcases im with _ | m <;>
    simp [UpdateDocument.header, Parameters.new, Parameters.insert,
      Parameters.get]

lemma UpdateDocument.upd_header_count_if_match (u : UpdateDocument Upd Old New) :
    u.header.countKey HEADER_IF_MATCH =
      (if u.if_match.isSome then 1 else 0) := by
  rcases u with ⟨id, upd, fws, ir, im, kn, mo, ro, rn⟩
  rcases im with _ | m <;>
    simp [UpdateDocument.header, Parameters.new, Parameters.insert,
      Parameters.countKey]

lemma UpdateDocument.upd_header_names (u : UpdateDocument Upd Old New) :
    u.header.names.all
      (fun k => k == HEADER_IF_MATCH || k == HEADER_IF_NON_MATCH) = true := by
  rcases u with ⟨id, upd, fws, ir, im, kn, mo, ro, rn⟩
  rcases im with _ | m <;>
    simp [UpdateDocument.header, Parameters.new, Parameters.insert,
      Parameters.names]

lemma ReplaceDocument.repl_parameters_get_wait_for_sync
    (r : ReplaceDocument Old New) :
    r.parameters.get PARAM_WAIT_FOR_SYNC =
      r.force_wait_for_sync.map ParamValue.bool := by
  rcases r with ⟨id, nd, fws, ir, im, ro, rn⟩
  rcases fws with _ | w <;> rcases ir with _ | a <;> rcases ro with _ | d <;>
    rcases rn with _ | e <;>
    simp [ReplaceDocument.parameters, Parameters.new, Parameters.insert,
      Parameters.get, PARAM_WAIT_FOR_SYNC, PARAM_IGNORE_REVISIONS,
      PARAM_RETURN_OLD, PARAM_RETURN_NEW]

lemma ReplaceDocument.repl_parameters_count_wait_for_sync
    (r : ReplaceDocument Old New) :
    r.parameters.countKey PARAM_WAIT_FOR_SYNC =
      (if r.force_wait_for_sync.isSome then 1 else 0) := by
  rcases r with ⟨id, nd, fws, ir, im, ro, rn⟩
  rcases fws with _ | w <;> rcases ir with _ | a <;> rcases ro with _ | d <;>
    rcases rn with _ | e <;>
    simp [ReplaceDocument.parameters, Parameters.new, Parameters.insert,
      Parameters.countKey, PARAM_WAIT_FOR_SYNC, PARAM_IGNORE_REVISIONS,
      PARAM_RETURN_OLD, PARAM_RETURN_NEW]

lemma ReplaceDocument.repl_parameters_get_ignore_revisions
    (r : ReplaceDocument Old New) :
    r.parameters.get PARAM_IGNORE_REVISIONS =
      r.ignore_revisions.map ParamValue.bool := by
  rcases r with ⟨id, nd, fws, ir, im, ro, rn⟩
  rcases fws with _ | w <;> rcases ir with _ | a <;> rcases ro with _ | d <;>
    rcases rn with _ | e <;>
    simp [ReplaceDocument.parameters, Parameters.new, Parameters.insert,
      Parameters.get, PARAM_WAIT_FOR_SYNC, PARAM_IGNORE_REVISIONS,
      PARAM_RETURN_OLD, PARAM_RETURN_NEW]

lemma ReplaceDocument.repl_parameters_count_ignore_revisions
    (r : ReplaceDocument Old New) :
    r.parameters.countKey PARAM_IGNORE_REVISIONS =
      (if r.ignore_revisions.isSome then 1 else 0) := by
  rcases r with ⟨id, nd, fws, ir, im, ro, rn⟩
  rcases fws with _ | w <;> rcases ir with _ | a <;> rcases ro with _ | d <;>
    rcases rn with _ | e <;>
    simp [ReplaceDocument.parameters, Parameters.new, Parameters.insert,
      Parameters.countKey, PARAM_WAIT_FOR_SYNC, PARAM_IGNORE_REVISIONS,
      PARAM_RETURN_OLD, PARAM_RETURN_NEW]

lemma ReplaceDocument.repl_parameters_get_return_old
    (r : ReplaceDocument Old New) :
    r.parameters.get PARAM_RETURN_OLD = r.return_old.map ParamValue.bool := by
  rcases r with ⟨id, nd, fws, ir, im, ro, rn⟩
  rcases fws with _ | w <;> rcases ir with _ | a <;> rcases ro with _ | d <;>
    rcases rn with _ | e <;>
    simp [ReplaceDocument.parameters, Parameters.new, Parameters.insert,
      Parameters.get, PARAM_WAIT_FOR_SYNC, PARAM_IGNORE_REVISIONS,
      PARAM_RETURN_OLD, PARAM_RETURN_NEW]

lemma ReplaceDocument.repl_parameters_count_return_old
    (r : ReplaceDocument Old New) :
    r.parameters.countKey PARAM_RETURN_OLD =
      (if r.return_old.isSome then 1 else 0) := by
  rcases r with ⟨id, nd, fws, ir, im, ro, rn⟩
  rcases fws with _ | w <;> rcases ir with _ | a <;> rcases ro with _ | d <;>
    rcases rn with _ | e <;>
    simp [ReplaceDocument.parameters, Parameters.new, Parameters.insert,
      Parameters.countKey, PARAM_WAIT_FOR_SYNC, PARAM_IGNORE_REVISIONS,
      PARAM_RETURN_OLD, PARAM_RETURN_NEW]

lemma ReplaceDocument.repl_parameters_get_return_new
    (r : ReplaceDocument Old New) :
    r.parameters.get PARAM_RETURN_NEW = r.return_new.map ParamValue.bool := by
  rcases r with ⟨id, nd, fws, ir, im, ro, rn⟩
  rcases fws with _ | w <;> rcases ir with _ | a <;> rcases ro with _ | d <;>
    rcases rn with _ | e <;>
    simp [ReplaceDocument.parameters, Parameters.new, Parameters.insert,
      Parameters.get, PARAM_WAIT_FOR_SYNC, PARAM_IGNORE_REVISIONS,
      PARAM_RETURN_OLD, PARAM_RETURN_NEW]

lemma ReplaceDocument.repl_parameters_count_return_new
    (r : ReplaceDocument Old New) :
    r.parameters.countKey PARAM_RETURN_NEW =
      (if r.return_new.isSome then 1 else 0) := by
  rcases r with ⟨id, nd, fws, ir, im, ro, rn⟩
  rcases fws with _ | w <;> rcases ir with _ | a <;> rcases ro with _ | d <;>
    rcases rn with _ | e <;>
    simp [ReplaceDocument.parameters, Parameters.new, Parameters.insert,
      Parameters.countKey, PARAM_WAIT_FOR_SYNC, PARAM_IGNORE_REVISIONS,
      PARAM_RETURN_OLD, PARAM_RETURN_NEW]

lemma ReplaceDocument.repl_header_get_if_match (r : ReplaceDocument Old New) :
    r.header.get HEADER_IF_MATCH = r.if_match.map ParamValue.str := by
  rcases r with ⟨id, nd, fws, ir, im, ro, rn⟩
  rcases im with _ | m <;>
    simp [ReplaceDocument.header, Parameters.new, Parameters.insert,
      Parameters.get]

lemma ReplaceDocument.repl_header_count_if_match (r : ReplaceDocument Old New) :
    r.header.countKey HEADER_IF_MATCH =
      (if r.if_match.isSome then 1 else 0) := by
  rcases r with ⟨id, nd, fws, ir, im, ro, rn⟩
  rcases im with _ | m <;>
    simp [ReplaceDocument.header, Parameters.new, Parameters.insert,
      Parameters.countKey]

lemma ReplaceDocument.repl_header_names (r : ReplaceDocument Old New) :
    r.header.names.all
      (fun k => k == HEADER_IF_MATCH || k == HEADER_IF_NON_MATCH) = true := by
  rcases r with ⟨id, nd, fws, ir, im, ro, rn⟩
  rcases im with _ | m <;>
    simp [ReplaceDocument.header, Parameters.new, Parameters.insert,
      Parameters.names]

lemma InsertDocument.insDoc_parameters_get_return_new (d : InsertDocument T) :
    d.parameters.get PARAM_RETURN_NEW = some (ParamValue.bool false) := by
  rcases d with ⟨c, doc, fws⟩
  rcases fws with _ | w <;>
    simp [InsertDocument.parameters, Parameters.new, Parameters.insert,
      Parameters.get, PARAM_RETURN_NEW, PARAM_WAIT_FOR_SYNC]

lemma InsertDocument.insDoc_parameters_count_return_new (d : InsertDocument T) :
    d.parameters.countKey PARAM_RETURN_NEW = 1 := by
  rcases d with ⟨c, doc, fws⟩
  rcases fws with _ | w <;>
    simp [InsertDocument.parameters, Parameters.new, Parameters.insert,
      Parameters.countKey, PARAM_RETURN_NEW, PARAM_WAIT_FOR_SYNC]

lemma InsertDocument.insDoc_parameters_get_wait_for_sync (d : InsertDocument T) :
    d.parameters.get PARAM_WAIT_FOR_SYNC =
      d.force_wait_for_sync.map ParamValue.bool := by
  rcases d with ⟨c, doc, fws⟩
  rcases fws with _ | w <;>
    simp [InsertDocument.parameters, Parameters.new, Parameters.insert,
      Parameters.get, PARAM_RETURN_NEW, PARAM_WAIT_FOR_SYNC]

lemma InsertDocument.insDoc_parameters_count_wait_for_sync (d : InsertDocument T) :
    d.parameters.countKey PARAM_WAIT_FOR_SYNC =
      (if d.force_wait_for_sync.isSome then 1 else 0) := by
  rcases d with ⟨c, doc, fws⟩
  rcases fws with _ | w <;>
    simp [InsertDocument.parameters, Parameters.new, Parameters.insert,
      Parameters.countKey, PARAM_RETURN_NEW, PARAM_WAIT_FOR_SYNC]

lemma InsertDocumentReturnNew.insDocNew_parameters_get_return_new
    (d : InsertDocumentReturnNew T) :
    d.parameters.get PARAM_RETURN_NEW = some (ParamValue.bool true) := by
  rcases d with ⟨c, doc, fws⟩
  rcases fws with _ | w <;>
    simp [InsertDocumentReturnNew.parameters, Parameters.new,
      Parameters.insert, Parameters.get, PARAM_RETURN_NEW,
      PARAM_WAIT_FOR_SYNC]

lemma InsertDocumentReturnNew.insDocNew_parameters_count_return_new
    (d : InsertDocumentReturnNew T) :
    d.parameters.countKey PARAM_RETURN_NEW = 1 := by
  rcases d with ⟨c, doc, fws⟩
  rcases fws with _ | w <;>
    simp [InsertDocumentReturnNew.parameters, Parameters.new,
      Parameters.insert, Parameters.countKey, PARAM_RETURN_NEW,
      PARAM_WAIT_FOR_SYNC]

lemma InsertDocumentReturnNew.insDocNew_parameters_get_wait_for_sync
    (d : InsertDocumentReturnNew T) :
    d.parameters.get PARAM_WAIT_FOR_SYNC =
      d.force_wait_for_sync.map ParamValue.bool := by
  rcases d with ⟨c, doc, fws⟩
  rcases fws with _ | w <;>
    simp [InsertDocumentReturnNew.parameters, Parameters.new,
      Parameters.insert, Parameters.get, PARAM_RETURN_NEW,
      PARAM_WAIT_FOR_SYNC]

lemma InsertDocumentReturnNew.insDocNew_parameters_count_wait_for_sync
    (d : InsertDocumentReturnNew T) :
    d.parameters.countKey PARAM_WAIT_FOR_SYNC =
      (if d.force_wait_for_sync.isSome then 1 else 0) := by
  rcases d with ⟨c, doc, fws⟩
  rcases fws with _ | w <;>
    simp [InsertDocumentReturnNew.parameters, Parameters.new,
      Parameters.insert, Parameters.countKey, PARAM_RETURN_NEW,
      PARAM_WAIT_FOR_SYNC]

lemma InsertDocuments.insDocs_parameters_get_return_new (d : InsertDocuments T) :
    d.parameters.get PARAM_RETURN_NEW = some (ParamValue.bool false) := by
  rcases d with ⟨c, docs, fws⟩
  rcases fws with _ | w <;>
    simp [InsertDocuments.parameters, Parameters.new, Parameters.insert,
      Parameters.get, PARAM_RETURN_NEW, PARAM_WAIT_FOR_SYNC]

lemma InsertDocuments.insDocs_parameters_count_return_new (d : InsertDocuments T) :
    d.parameters.countKey PARAM_RETURN_NEW = 1 := by
  rcases d with ⟨c, docs, fws⟩
  rcases fws with _ | w <;>
    simp [InsertDocuments.parameters, Parameters.new, Parameters.insert,
      Parameters.countKey, PARAM_RETURN_NEW, PARAM_WAIT_FOR_SYNC]

lemma InsertDocuments.insDocs_parameters_get_wait_for_sync (d : InsertDocuments T) :
    d.parameters.get PARAM_WAIT_FOR_SYNC =
      d.force_wait_for_sync.map ParamValue.bool := by
  rcases d with ⟨c, docs, fws⟩
  rcases fws with _ | w <;>
    simp [InsertDocuments.parameters, Parameters.new, Parameters.insert,
      Parameters.get, PARAM_RETURN_NEW, PARAM_WAIT_FOR_SYNC]

lemma InsertDocuments.insDocs_parameters_count_wait_for_sync
    (d : InsertDocuments T) :
    d.parameters.countKey PARAM_WAIT_FOR_SYNC =
      (if d.force_wait_for_sync.isSome then 1 else 0) := by
  rcases d with ⟨c, docs, fws⟩
  rcases fws with _ | w <;>
    simp [InsertDocuments.parameters, Parameters.new, Parameters.insert,
      Parameters.countKey, PARAM_RETURN_NEW, PARAM_WAIT_FOR_SYNC]

lemma InsertDocumentsReturnNew.insDocsNew_parameters_get_return_new
    (d : InsertDocumentsReturnNew T) :
    d.parameters.get PARAM_RETURN_NEW = some (ParamValue.bool true) := by
  rcases d with ⟨c, docs, fws⟩
  rcases fws with _ | w <;>
    simp [InsertDocumentsReturnNew.parameters, Parameters.new,
      Parameters.insert, Parameters.get, PARAM_RETURN_NEW,
      PARAM_WAIT_FOR_SYNC]

lemma InsertDocumentsReturnNew.insDocsNew_parameters_count_return_new
    (d : InsertDocumentsReturnNew T) :
    d.parameters.countKey PARAM_RETURN_NEW = 1 := by
  rcases d with ⟨c, docs, fws⟩
  rcases fws with _ | w <;>
    simp [InsertDocumentsReturnNew.parameters, Parameters.new,
      Parameters.insert, Parameters.countKey, PARAM_RETURN_NEW,
      PARAM_WAIT_FOR_SYNC]

lemma InsertDocumentsReturnNew.insDocsNew_parameters_get_wait_for_sync
    (d : InsertDocumentsReturnNew T) :
    d.parameters.get PARAM_WAIT_FOR_SYNC =
      d.force_wait_for_sync.map ParamValue.bool := by
  rcases d with ⟨c, docs, fws⟩
  rcases fws with _ | w <;>
    simp [InsertDocumentsReturnNew.parameters, Parameters.new,
      Parameters.insert, Parameters.get, PARAM_RETURN_NEW,
      PARAM_WAIT_FOR_SYNC]

lemma InsertDocumentsReturnNew.insDocsNew_parameters_count_wait_for_sync
    (d : InsertDocumentsReturnNew T) :
    d.parameters.countKey PARAM_WAIT_FOR_SYNC =
      (if d.force_wait_for_sync.isSome then 1 else 0) := by
  rcases d with ⟨c, docs, fws⟩
  rcases fws with _ | w <;>
    simp [InsertDocumentsReturnNew.parameters, Parameters.new,
      Parameters.insert, Parameters.countKey, PARAM_RETURN_NEW,
      PARAM_WAIT_FOR_SYNC]

lemma GetDocument.getDoc_header_get_if_match (g : GetDocument T) :
    g.header.get HEADER_IF_MATCH = g.if_match.map ParamValue.str := by
  rcases g with ⟨id, im, inm⟩
  rcases im with _ | m <;> rcases inm with _ | n <;>
    simp [GetDocument.header, Parameters.new, Parameters.insert,
      Parameters.get, HEADER_IF_MATCH, HEADER_IF_NON_MATCH]

lemma GetDocument.getDoc_header_get_if_non_match (g : GetDocument T) :
    g.header.get HEADER_IF_NON_MATCH = g.if_non_match.map ParamValue.str := by
  rcases g with ⟨id, im, inm⟩
  rcases im with _ | m <;> rcases inm with _ | n <;>
    simp [GetDocument.header, Parameters.new, Parameters.insert,
      Parameters.get, HEADER_IF_MATCH, HEADER_IF_NON_MATCH]

lemma GetDocument.getDoc_header_count_if_match (g : GetDocument T) :
    g.header.countKey HEADER_IF_MATCH =
      (if g.if_match.isSome then 1 else 0) := by
  rcases g with ⟨id, im, inm⟩
  rcases im with _ | m <;> rcases inm with _ | n <;>
    simp [GetDocument.header, Parameters.new, Parameters.insert,
      Parameters.countKey, HEADER_IF_MATCH, HEADER_IF_NON_MATCH]

lemma GetDocument.getDoc_header_count_if_non_match (g : GetDocument T) :
    g.header.countKey HEADER_IF_NON_MATCH =
      (if g.if_non_match.isSome then 1 else 0) := by
  rcases g with ⟨id, im, inm⟩
  rcases im with _ | m <;> rcases inm with _ | n <;>
    simp [GetDocument.header, Parameters.new, Parameters.insert,
      Parameters.countKey, HEADER_IF_MATCH, HEADER_IF_NON_MATCH]

lemma GetDocument.getDoc_header_names (g : GetDocument T) :
    g.header.names.all
      (fun k => k == HEADER_IF_MATCH || k == HEADER_IF_NON_MATCH) = true := by
  rcases g with ⟨id, im, inm⟩
  rcases im with _ | m <;> rcases inm with _ | n <;>
    simp [GetDocument.header, Parameters.new, Parameters.insert,
      Parameters.names]

lemma GetDocumentHeader.getHdr_header_get_if_match (g : GetDocumentHeader) :
    g.header.get HEADER_IF_MATCH = g.if_match.map ParamValue.str := by
  rcases g with ⟨id, im, inm⟩
  rcases im with _ | m <;> rcases inm with _ | n <;>
    simp [GetDocumentHeader.header, Parameters.new, Parameters.insert,
      Parameters.get, HEADER_IF_MATCH, HEADER_IF_NON_MATCH]

lemma GetDocumentHeader.getHdr_header_get_if_non_match (g : GetDocumentHeader) :
    g.header.get HEADER_IF_NON_MATCH = g.if_non_match.map ParamValue.str := by
  rcases g with ⟨id, im, inm⟩
  rcases im with _ | m <;> rcases inm with _ | n <;>
    simp [GetDocumentHeader.header, Parameters.new, Parameters.insert,
      Parameters.get, HEADER_IF_MATCH, HEADER_IF_NON_MATCH]

lemma GetDocumentHeader.getHdr_header_count_if_match (g : GetDocumentHeader) :
    g.header.countKey HEADER_IF_MATCH =
      (if g.if_match.isSome then 1 else 0) := by
  rcases g with ⟨id, im, inm⟩
  rcases im with _ | m <;> rcases inm with _ | n <;>
    simp [GetDocumentHeader.header, Parameters.new, Parameters.insert,
      Parameters.countKey, HEADER_IF_MATCH, HEADER_IF_NON_MATCH]

lemma GetDocumentHeader.getHdr_header_count_if_non_match (g : GetDocumentHeader) :
    g.header.countKey HEADER_IF_NON_MATCH =
      (if g.if_non_match.isSome then 1 else 0) := by
  rcases g with ⟨id, im, inm⟩
  rcases im with _ | m <;> rcases inm with _ | n <;>
    simp [GetDocumentHeader.header, Parameters.new, Parameters.insert,
      Parameters.countKey, HEADER_IF_MATCH, HEADER_IF_NON_MATCH]

lemma GetDocumentHeader.getHdr_header_names (g : GetDocumentHeader) :
    g.header.names.all
      (fun k => k == HEADER_IF_MATCH || k == HEADER_IF_NON_MATCH) = true := by
  rcases g with ⟨id, im, inm⟩
  rcases im with _ | m <;> rcases inm with _ | n <;>
    simp [GetDocumentHeader.header, Parameters.new, Parameters.insert,
      Parameters.names]

end Characterization

/-! ### Claim theorems -/

/-- C2: For every `InsertDocument` and `InsertDocuments` descriptor the
mapping returned by `parameters` always contains the entry
returnNew=false, and for every `InsertDocumentReturnNew` and
`InsertDocumentsReturnNew` descriptor it always contains returnNew=true,
regardless of which modifiers were called; the only modifier each of the
four insert descriptor types exposes (`with_force_wait_for_sync`) leaves
this entry unchanged. -/
theorem claim_C2_insert_return_new_hard_coded :
    (∀ (T : Type) (d : InsertDocument T),
      d.parameters.get PARAM_RETURN_NEW = some (ParamValue.bool false) ∧
      d.parameters.countKey PARAM_RETURN_NEW = 1 ∧
      ∀ w, (d.with_force_wait_for_sync w).parameters.get PARAM_RETURN_NEW =
        some (ParamValue.bool false)) ∧
    (∀ (T : Type) (d : InsertDocuments T),
      d.parameters.get PARAM_RETURN_NEW = some (ParamValue.bool false) ∧
      d.parameters.countKey PARAM_RETURN_NEW = 1 ∧
      ∀ w, (d.with_force_wait_for_sync w).parameters.get PARAM_RETURN_NEW =
        some (ParamValue.bool false)) ∧
    (∀ (T : Type) (d : InsertDocumentReturnNew T),
      d.parameters.get PARAM_RETURN_NEW = some (ParamValue.bool true) ∧
      d.parameters.countKey PARAM_RETURN_NEW = 1 ∧
      ∀ w, (d.with_force_wait_for_sync w).parameters.get PARAM_RETURN_NEW =
        some (ParamValue.bool true)) ∧
    (∀ (T : Type) (d : InsertDocumentsReturnNew T),
      d.parameters.get PARAM_RETURN_NEW = some (ParamValue.bool true) ∧
      d.parameters.countKey PARAM_RETURN_NEW = 1 ∧
      ∀ w, (d.with_force_wait_for_sync w).parameters.get PARAM_RETURN_NEW =
        some (ParamValue.bool true)) := by
  refine ⟨fun T d => ⟨?_, ?_, fun w => ?_⟩, fun T d => ⟨?_, ?_, fun w => ?_⟩,
    fun T d => ⟨?_, ?_, fun w => ?_⟩, fun T d => ⟨?_, ?_, fun w => ?_⟩⟩ <;>
    first
      | exact InsertDocument.insDoc_parameters_get_return_new _
      | exact InsertDocument.insDoc_parameters_count_return_new _
      | exact InsertDocuments.insDocs_parameters_get_return_new _
      | exact InsertDocuments.insDocs_parameters_count_return_new _
      | exact InsertDocumentReturnNew.insDocNew_parameters_get_return_new _
      | exact InsertDocumentReturnNew.insDocNew_parameters_count_return_new _
      | exact InsertDocumentsReturnNew.insDocsNew_parameters_get_return_new _
      | exact InsertDocumentsReturnNew.insDocsNew_parameters_count_return_new _

/-- C5: `path` is a deterministic pure function of each descriptor's
fields: for the four insert (create) descriptors it is the fixed API
document root followed by "/" and the collection name, and for the
read/read-header/replace/modify descriptors it is the root followed by "/"
and the document id rendered as "collection/key"; in particular
`InsertDocument.new "users" doc` yields ".../users" and a `GetDocument` of
DocumentId("users","42") yields ".../users/42". -/
theorem claim_C5_path_construction :
    (∀ (T : Type) (g : GetDocument T),
      g.path = PATH_API_DOCUMENT ++ "/" ++
        (g.id.collectionName ++ "/" ++ g.id.documentKey)) ∧
    (∀ g : GetDocumentHeader,
      g.path = PATH_API_DOCUMENT ++ "/" ++
        (g.id.collectionName ++ "/" ++ g.id.documentKey)) ∧
    (∀ (T : Type) (d : InsertDocument T),
      d.path = PATH_API_DOCUMENT ++ "/" ++ d.collection_name) ∧
    (∀ (T : Type) (d : InsertDocumentReturnNew T),
      d.path = PATH_API_DOCUMENT ++ "/" ++ d.collection_name) ∧
    (∀ (T : Type) (d : InsertDocuments T),
      d.path = PATH_API_DOCUMENT ++ "/" ++ d.collection_name) ∧
    (∀ (T : Type) (d : InsertDocumentsReturnNew T),
      d.path = PATH_API_DOCUMENT ++ "/" ++ d.collection_name) ∧
    (∀ (Old New : Type) (r : ReplaceDocument Old New),
      r.path = PATH_API_DOCUMENT ++ "/" ++
        (r.document_id.collectionName ++ "/" ++ r.document_id.documentKey)) ∧
    (∀ (Upd Old New : Type) (u : UpdateDocument Upd Old New),
      u.path = PATH_API_DOCUMENT ++ "/" ++
        (u.document_id.collectionName ++ "/" ++ u.document_id.documentKey)) ∧
    (∀ (T : Type) (doc : NewDocument T),
      (InsertDocument.new "users" doc).path = "/_api/document/users") ∧
    (∀ T : Type,
      (GetDocument.new T (DocumentId.new "users" "42")).path =
        "/_api/document/users/42") := by
  exact ⟨fun _ _ => rfl, fun _ => rfl, fun _ _ => rfl, fun _ _ => rfl,
    fun _ _ => rfl, fun _ _ => rfl, fun _ _ _ => rfl, fun _ _ _ _ => rfl,
    fun _ _ => rfl, fun _ => rfl⟩

/-- C6: `content` is none for the read-like descriptors and some of the
exact payload given at construction for the write-like ones; in particular
`InsertDocuments.new c [d1, d2]` holds exactly those two documents in the
same order. -/
theorem claim_C6_body_content :
    (∀ (T : Type) (g : GetDocument T), g.content = none) ∧
    (∀ g : GetDocumentHeader, g.content = none) ∧
    (∀ (T : Type) (d : InsertDocument T), d.content = some d.document) ∧
    (∀ (T : Type) (c : String) (doc : NewDocument T),
      (InsertDocument.new c doc).content = some doc) ∧
    (∀ (T : Type) (d : InsertDocumentReturnNew T),
      d.content = some d.document) ∧
    (∀ (T : Type) (c : String) (doc : NewDocument T),
      (InsertDocumentReturnNew.new c doc).content = some doc) ∧
    (∀ (T : Type) (d : InsertDocuments T), d.content = some d.documents) ∧
    (∀ (T : Type) (c : String) (docs : List (NewDocument T)),
      (InsertDocuments.new c docs).content = some docs) ∧
    (∀ (T : Type) (d : InsertDocumentsReturnNew T),
      d.content = some d.documents) ∧
    (∀ (T : Type) (c : String) (docs : List (NewDocument T)),
      (InsertDocumentsReturnNew.new c docs).content = some docs) ∧
    (∀ (Old New : Type) (r : ReplaceDocument Old New),
      r.content = some r.new_document) ∧
    (∀ (Old New : Type) (id : DocumentId) (nd : DocumentUpdate New),
      (ReplaceDocument.new Old id nd).content = some nd) ∧
    (∀ (Upd Old New : Type) (u : UpdateDocument Upd Old New),
      u.content = some u.update) ∧
    (∀ (Upd Old New : Type) (id : DocumentId) (upd : DocumentUpdate Upd),
      (UpdateDocument.new Old New id upd).content = some upd) ∧
    (∀ (T : Type) (c : String) (d1 d2 : NewDocument T),
      (InsertDocuments.new c [d1, d2]).documents.length = 2 ∧
      (InsertDocuments.new c [d1, d2]).content = some [d1, d2]) := by
  exact ⟨fun _ _ => rfl, fun _ => rfl, fun _ _ => rfl, fun _ _ _ => rfl,
    fun _ _ => rfl, fun _ _ _ => rfl, fun _ _ => rfl, fun _ _ _ => rfl,
    fun _ _ => rfl, fun _ _ _ => rfl, fun _ _ _ => rfl,
    fun _ _ _ _ => rfl, fun _ _ _ _ => rfl, fun _ _ _ _ _ => rfl,
    fun _ _ _ _ => ⟨rfl, rfl⟩⟩

/-- C8: `operation` is constant per descriptor type and matches the
declared kinds: GetDocument yields read, GetDocumentHeader yields
read-header, all four insert descriptors yield create, ReplaceDocument
yields replace and UpdateDocument yields modify, independently of the
descriptor's field values. -/
theorem claim_C8_operation_kinds :
    (∀ (T : Type) (g : GetDocument T), g.operation = Operation.Read) ∧
    (∀ g : GetDocumentHeader, g.operation = Operation.ReadHeader) ∧
    (∀ (T : Type) (d : InsertDocument T), d.operation = Operation.Create) ∧
    (∀ (T : Type) (d : InsertDocumentReturnNew T),
      d.operation = Operation.Create) ∧
    (∀ (T : Type) (d : InsertDocuments T), d.operation = Operation.Create) ∧
    (∀ (T : Type) (d : InsertDocumentsReturnNew T),
      d.operation = Operation.Create) ∧
    (∀ (Old New : Type) (r : ReplaceDocument Old New),
      r.operation = Operation.Replace) ∧
    (∀ (Upd Old New : Type) (u : UpdateDocument Upd Old New),
      u.operation = Operation.Modify) := by
  exact ⟨fun _ _ => rfl, fun _ => rfl, fun _ _ => rfl, fun _ _ => rfl,
    fun _ _ => rfl, fun _ _ => rfl, fun _ _ _ => rfl, fun _ _ _ _ => rfl⟩

/-- C9: all eight document descriptors declare the same response shape:
the result-payload field slot is empty (the result is the response body
itself) and the status-code field slot names the one fixed status field
literal. -/
theorem claim_C9_return_type_shape :
    GetDocument.RETURN_TYPE.result_field = none ∧
    GetDocument.RETURN_TYPE.code_field = some FIELD_CODE ∧
    GetDocumentHeader.RETURN_TYPE.result_field = none ∧
    GetDocumentHeader.RETURN_TYPE.code_field = some FIELD_CODE ∧
    InsertDocument.RETURN_TYPE.result_field = none ∧
    InsertDocument.RETURN_TYPE.code_field = some FIELD_CODE ∧
    InsertDocumentReturnNew.RETURN_TYPE.result_field = none ∧
    InsertDocumentReturnNew.RETURN_TYPE.code_field = some FIELD_CODE ∧
    InsertDocuments.RETURN_TYPE.result_field = none ∧
    InsertDocuments.RETURN_TYPE.code_field = some FIELD_CODE ∧
    InsertDocumentsReturnNew.RETURN_TYPE.result_field = none ∧
    InsertDocumentsReturnNew.RETURN_TYPE.code_field = some FIELD_CODE ∧
    ReplaceDocument.RETURN_TYPE.result_field = none ∧
    ReplaceDocument.RETURN_TYPE.code_field = some FIELD_CODE ∧
    UpdateDocument.RETURN_TYPE.result_field = none ∧
    UpdateDocument.RETURN_TYPE.code_field = some FIELD_CODE := by
  exact ⟨rfl, rfl, rfl, rfl, rfl, rfl, rfl, rfl, rfl, rfl, rfl, rfl, rfl,
    rfl, rfl, rfl⟩

/-- C4: on the read descriptors GetDocument and GetDocumentHeader a
caller may set both if-match and if-non-match independently; when both are
set the produced header mapping contains both the "If-Match" and the
"If-None-Match" entries (no mutual-exclusion rule is applied by this
layer), and "If-Match"/"If-None-Match" are the only header names any of
the eight descriptors ever produces. -/
theorem claim_C4_headers_both_and_only :
    (∀ (T : Type) (g : GetDocument T) (m n : String),
      ((g.with_if_match (some m)).with_if_non_match (some n)).header.get
          HEADER_IF_MATCH = some (ParamValue.str m) ∧
      ((g.with_if_match (some m)).with_if_non_match (some n)).header.get
          HEADER_IF_NON_MATCH = some (ParamValue.str n) ∧
      ((g.with_if_match (some m)).with_if_non_match (some n)).header.names
          = [HEADER_IF_MATCH, HEADER_IF_NON_MATCH]) ∧
    (∀ (g : GetDocumentHeader) (m n : String),
      ((g.with_if_match (some m)).with_if_non_match (some n)).header.get
          HEADER_IF_MATCH = some (ParamValue.str m) ∧
      ((g.with_if_match (some m)).with_if_non_match (some n)).header.get
          HEADER_IF_NON_MATCH = some (ParamValue.str n) ∧
      ((g.with_if_match (some m)).with_if_non_match (some n)).header.names
          = [HEADER_IF_MATCH, HEADER_IF_NON_MATCH]) ∧
    (∀ (T : Type) (g : GetDocument T),
      g.header.names.all
        (fun k => k == HEADER_IF_MATCH || k == HEADER_IF_NON_MATCH)
        = true) ∧
    (∀ g : GetDocumentHeader,
      g.header.names.all
        (fun k => k == HEADER_IF_MATCH || k == HEADER_IF_NON_MATCH)
        = true) ∧
    (∀ (T : Type) (d : InsertDocument T),
      d.header.names.all
        (fun k => k == HEADER_IF_MATCH || k == HEADER_IF_NON_MATCH)
        = true) ∧
    (∀ (T : Type) (d : InsertDocumentReturnNew T),
      d.header.names.all
        (fun k => k == HEADER_IF_MATCH || k == HEADER_IF_NON_MATCH)
        = true) ∧
    (∀ (T : Type) (d : InsertDocuments T),
      d.header.names.all
        (fun k => k == HEADER_IF_MATCH || k == HEADER_IF_NON_MATCH)
        = true) ∧
    (∀ (T : Type) (d : InsertDocumentsReturnNew T),
      d.header.names.all
        (fun k => k == HEADER_IF_MATCH || k == HEADER_IF_NON_MATCH)
        = true) ∧
    (∀ (Old New : Type) (r : ReplaceDocument Old New),
      r.header.names.all
        (fun k => k == HEADER_IF_MATCH || k == HEADER_IF_NON_MATCH)
        = true) ∧
    (∀ (Upd Old New : Type) (u : UpdateDocument Upd Old New),
      u.header.names.all
        (fun k => k == HEADER_IF_MATCH || k == HEADER_IF_NON_MATCH)
        = true) := by
  refine ⟨fun T g m n => ⟨?_, ?_, ?_⟩, fun g m n => ⟨?_, ?_, ?_⟩,
    fun T g => GetDocument.getDoc_header_names g,
    fun g => GetDocumentHeader.getHdr_header_names g,
    fun T d => rfl, fun T d => rfl, fun T d => rfl, fun T d => rfl,
    fun Old New r => ReplaceDocument.repl_header_names r,
    fun Upd Old New u => UpdateDocument.upd_header_names u⟩ <;>
    simp [GetDocument.getDoc_header_get_if_match, GetDocument.getDoc_header_get_if_non_match,
      GetDocumentHeader.getHdr_header_get_if_match,
      GetDocumentHeader.getHdr_header_get_if_non_match,
      GetDocument.with_if_match, GetDocument.with_if_non_match,
      GetDocumentHeader.with_if_match, GetDocumentHeader.with_if_non_match,
      GetDocument.header, GetDocumentHeader.header, Parameters.new,
      Parameters.insert, Parameters.names, Parameters.get,
      HEADER_IF_MATCH, HEADER_IF_NON_MATCH]

/-- C7: getters round-trip with their modifiers: a freshly constructed
GetDocument's `if_match` is none and becomes some "rev1" after
`with_if_match "rev1"`; for every boolean modifier on
ReplaceDocument/UpdateDocument, applying the modifier makes the getter
return the given value, a fresh descriptor's getter is none and its
parameter mapping carries the getter's value (hence no entry when the
modifier was never called). -/
theorem claim_C7_getters_round_trip :
    (∀ (T : Type) (id : DocumentId),
      (GetDocument.new T id).if_match = none) ∧
    (∀ (T : Type) (g : GetDocument T),
      (g.with_if_match (some "rev1")).if_match = some "rev1") ∧
    (∀ (Old New : Type) (r : ReplaceDocument Old New) (v : Option Bool),
      (r.with_force_wait_for_sync v).force_wait_for_sync = v ∧
      (r.with_ignore_revisions v).ignore_revisions = v ∧
      (r.with_return_old v).return_old = v ∧
      (r.with_return_new v).return_new = v) ∧
    (∀ (Old New : Type) (id : DocumentId) (nd : DocumentUpdate New),
      (ReplaceDocument.new Old id nd).force_wait_for_sync = none ∧
      (ReplaceDocument.new Old id nd).ignore_revisions = none ∧
      (ReplaceDocument.new Old id nd).return_old = none ∧
      (ReplaceDocument.new Old id nd).return_new = none ∧
      (ReplaceDocument.new Old id nd).parameters = Parameters.empty) ∧
    (∀ (Old New : Type) (r : ReplaceDocument Old New),
      r.parameters.get PARAM_WAIT_FOR_SYNC =
        r.force_wait_for_sync.map ParamValue.bool ∧
      r.parameters.get PARAM_IGNORE_REVISIONS =
        r.ignore_revisions.map ParamValue.bool ∧
      r.parameters.get PARAM_RETURN_OLD = r.return_old.map ParamValue.bool ∧
      r.parameters.get PARAM_RETURN_NEW = r.return_new.map ParamValue.bool) ∧
    (∀ (Upd Old New : Type) (u : UpdateDocument Upd Old New)
        (v : Option Bool),
      (u.with_force_wait_for_sync v).force_wait_for_sync = v ∧
      (u.with_ignore_revisions v).ignore_revisions = v ∧
      (u.with_keep_none v).keep_none = v ∧
      (u.with_merge_objects v).merge_objects = v ∧
      (u.with_return_old v).return_old = v ∧
      (u.with_return_new v).return_new = v) ∧
    (∀ (Upd Old New : Type) (id : DocumentId) (upd : DocumentUpdate Upd),
      (UpdateDocument.new Old New id upd).force_wait_for_sync = none ∧
      (UpdateDocument.new Old New id upd).ignore_revisions = none ∧
      (UpdateDocument.new Old New id upd).keep_none = none ∧
      (UpdateDocument.new Old New id upd).merge_objects = none ∧
      (UpdateDocument.new Old New id upd).return_old = none ∧
      (UpdateDocument.new Old New id upd).return_new = none ∧
      (UpdateDocument.new Old New id upd).parameters = Parameters.empty) ∧
    (∀ (Upd Old New : Type) (u : UpdateDocument Upd Old New),
      u.parameters.get PARAM_WAIT_FOR_SYNC =
        u.force_wait_for_sync.map ParamValue.bool ∧
      u.parameters.get PARAM_IGNORE_REVISIONS =
        u.ignore_revisions.map ParamValue.bool ∧
      u.parameters.get PARAM_KEEP_NULL = u.keep_none.map ParamValue.bool ∧
      u.parameters.get PARAM_MERGE_OBJECTS =
        u.merge_objects.map ParamValue.bool ∧
      u.parameters.get PARAM_RETURN_OLD = u.return_old.map ParamValue.bool ∧
      u.parameters.get PARAM_RETURN_NEW = u.return_new.map ParamValue.bool) :=
  ⟨fun _ _ => rfl, fun _ _ => rfl,
    fun _ _ _ _ => ⟨rfl, rfl, rfl, rfl⟩,
    fun _ _ _ _ => ⟨rfl, rfl, rfl, rfl, rfl⟩,
    fun _ _ r => ⟨ReplaceDocument.repl_parameters_get_wait_for_sync r,
      ReplaceDocument.repl_parameters_get_ignore_revisions r,
      ReplaceDocument.repl_parameters_get_return_old r,
      ReplaceDocument.repl_parameters_get_return_new r⟩,
    fun _ _ _ _ _ => ⟨rfl, rfl, rfl, rfl, rfl, rfl⟩,
    fun _ _ _ _ _ => ⟨rfl, rfl, rfl, rfl, rfl, rfl, rfl⟩,
    fun _ _ _ u => ⟨UpdateDocument.upd_parameters_get_wait_for_sync u,
      UpdateDocument.upd_parameters_get_ignore_revisions u,
      UpdateDocument.upd_parameters_get_keep_null u,
      UpdateDocument.upd_parameters_get_merge_objects u,
      UpdateDocument.upd_parameters_get_return_old u,
      UpdateDocument.upd_parameters_get_return_new u⟩⟩

/-- C1: for every descriptor and every optional modifier, the produced
parameter/header mapping carries the entry for that modifier exactly when
the corresponding optional field is set — an unset modifier contributes no
entry, a set modifier contributes exactly one entry carrying the set
value, and calling the same modifier again replaces the earlier value (so
repeated identical calls leave the descriptor and its mapping
unchanged). -/
theorem claim_C1_modifier_mapping_correspondence :
    (∀ (T : Type) (g : GetDocument T) (v : String) (a b : Option String),
      g.header.get HEADER_IF_MATCH = g.if_match.map ParamValue.str ∧
      g.header.countKey HEADER_IF_MATCH =
        (if g.if_match.isSome then 1 else 0) ∧
      (g.with_if_match (some v)).header.get HEADER_IF_MATCH =
        some (ParamValue.str v) ∧
      (g.with_if_match (some v)).header.countKey HEADER_IF_MATCH = 1 ∧
      (g.with_if_match a).with_if_match b = g.with_if_match b) ∧
    (∀ (T : Type) (g : GetDocument T) (v : String) (a b : Option String),
      g.header.get HEADER_IF_NON_MATCH = g.if_non_match.map ParamValue.str ∧
      g.header.countKey HEADER_IF_NON_MATCH =
        (if g.if_non_match.isSome then 1 else 0) ∧
      (g.with_if_non_match (some v)).header.get HEADER_IF_NON_MATCH =
        some (ParamValue.str v) ∧
      (g.with_if_non_match (some v)).header.countKey HEADER_IF_NON_MATCH
        = 1 ∧
      (g.with_if_non_match a).with_if_non_match b = g.with_if_non_match b) ∧
    (∀ (g : GetDocumentHeader) (v : String) (a b : Option String),
      g.header.get HEADER_IF_MATCH = g.if_match.map ParamValue.str ∧
      g.header.countKey HEADER_IF_MATCH =
        (if g.if_match.isSome then 1 else 0) ∧
      (g.with_if_match (some v)).header.get HEADER_IF_MATCH =
        some (ParamValue.str v) ∧
      (g.with_if_match (some v)).header.countKey HEADER_IF_MATCH = 1 ∧
      (g.with_if_match a).with_if_match b = g.with_if_match b) ∧
    (∀ (g : GetDocumentHeader) (v : String) (a b : Option String),
      g.header.get HEADER_IF_NON_MATCH = g.if_non_match.map ParamValue.str ∧
      g.header.countKey HEADER_IF_NON_MATCH =
        (if g.if_non_match.isSome then 1 else 0) ∧
      (g.with_if_non_match (some v)).header.get HEADER_IF_NON_MATCH =
        some (ParamValue.str v) ∧
      (g.with_if_non_match (some v)).header.countKey HEADER_IF_NON_MATCH
        = 1 ∧
      (g.with_if_non_match a).with_if_non_match b = g.with_if_non_match b) ∧
    (∀ (T : Type) (d : InsertDocument T) (v : Bool) (a b : Option Bool),
      d.parameters.get PARAM_WAIT_FOR_SYNC =
        d.force_wait_for_sync.map ParamValue.bool ∧
      d.parameters.countKey PARAM_WAIT_FOR_SYNC =
        (if d.force_wait_for_sync.isSome then 1 else 0) ∧
      (d.with_force_wait_for_sync (some v)).parameters.get
          PARAM_WAIT_FOR_SYNC = some (ParamValue.bool v) ∧
      (d.with_force_wait_for_sync (some v)).parameters.countKey
          PARAM_WAIT_FOR_SYNC = 1 ∧
      (d.with_force_wait_for_sync a).with_force_wait_for_sync b =
        d.with_force_wait_for_sync b) ∧
    (∀ (T : Type) (d : InsertDocumentReturnNew T) (v : Bool)
        (a b : Option Bool),
      d.parameters.get PARAM_WAIT_FOR_SYNC =
        d.force_wait_for_sync.map ParamValue.bool ∧
      d.parameters.countKey PARAM_WAIT_FOR_SYNC =
        (if d.force_wait_for_sync.isSome then 1 else 0) ∧
      (d.with_force_wait_for_sync (some v)).parameters.get
          PARAM_WAIT_FOR_SYNC = some (ParamValue.bool v) ∧
      (d.with_force_wait_for_sync (some v)).parameters.countKey
          PARAM_WAIT_FOR_SYNC = 1 ∧
      (d.with_force_wait_for_sync a).with_force_wait_for_sync b =
        d.with_force_wait_for_sync b) ∧
    (∀ (T : Type) (d : InsertDocuments T) (v : Bool) (a b : Option Bool),
      d.parameters.get PARAM_WAIT_FOR_SYNC =
        d.force_wait_for_sync.map ParamValue.bool ∧
      d.parameters.countKey PARAM_WAIT_FOR_SYNC =
        (if d.force_wait_for_sync.isSome then 1 else 0) ∧
      (d.with_force_wait_for_sync (some v)).parameters.get
          PARAM_WAIT_FOR_SYNC = some (ParamValue.bool v) ∧
      (d.with_force_wait_for_sync (some v)).parameters.countKey
          PARAM_WAIT_FOR_SYNC = 1 ∧
      (d.with_force_wait_for_sync a).with_force_wait_for_sync b =
        d.with_force_wait_for_sync b) ∧
    (∀ (T : Type) (d : InsertDocumentsReturnNew T) (v : Bool)
        (a b : Option Bool),
      d.parameters.get PARAM_WAIT_FOR_SYNC =
        d.force_wait_for_sync.map ParamValue.bool ∧
      d.parameters.countKey PARAM_WAIT_FOR_SYNC =
        (if d.force_wait_for_sync.isSome then 1 else 0) ∧
      (d.with_force_wait_for_sync (some v)).parameters.get
          PARAM_WAIT_FOR_SYNC = some (ParamValue.bool v) ∧
      (d.with_force_wait_for_sync (some v)).parameters.countKey
          PARAM_WAIT_FOR_SYNC = 1 ∧
      (d.with_force_wait_for_sync a).with_force_wait_for_sync b =
        d.with_force_wait_for_sync b) ∧
    (∀ (Old New : Type) (r : ReplaceDocument Old New) (v : Bool)
        (a b : Option Bool),
      r.parameters.get PARAM_WAIT_FOR_SYNC =
        r.force_wait_for_sync.map ParamValue.bool ∧
      r.parameters.countKey PARAM_WAIT_FOR_SYNC =
        (if r.force_wait_for_sync.isSome then 1 else 0) ∧
      (r.with_force_wait_for_sync (some v)).parameters.get
          PARAM_WAIT_FOR_SYNC = some (ParamValue.bool v) ∧
      (r.with_force_wait_for_sync (some v)).parameters.countKey
          PARAM_WAIT_FOR_SYNC = 1 ∧
      (r.with_force_wait_for_sync a).with_force_wait_for_sync b =
        r.with_force_wait_for_sync b) ∧
    (∀ (Old New : Type) (r : ReplaceDocument Old New) (v : Bool)
        (a b : Option Bool),
      r.parameters.get PARAM_IGNORE_REVISIONS =
        r.ignore_revisions.map ParamValue.bool ∧
      r.parameters.countKey PARAM_IGNORE_REVISIONS =
        (if r.ignore_revisions.isSome then 1 else 0) ∧
      (r.with_ignore_revisions (some v)).parameters.get
          PARAM_IGNORE_REVISIONS = some (ParamValue.bool v) ∧
      (r.with_ignore_revisions (some v)).parameters.countKey
          PARAM_IGNORE_REVISIONS = 1 ∧
      (r.with_ignore_revisions a).with_ignore_revisions b =
        r.with_ignore_revisions b) ∧
    (∀ (Old New : Type) (r : ReplaceDocument Old New) (v : String)
        (a b : Option String),
      r.header.get HEADER_IF_MATCH = r.if_match.map ParamValue.str ∧
      r.header.countKey HEADER_IF_MATCH =
        (if r.if_match.isSome then 1 else 0) ∧
      (r.with_if_match (some v)).header.get HEADER_IF_MATCH =
        some (ParamValue.str v) ∧
      (r.with_if_match (some v)).header.countKey HEADER_IF_MATCH = 1 ∧
      (r.with_if_match a).with_if_match b = r.with_if_match b) ∧
    (∀ (Old New : Type) (r : ReplaceDocument Old New) (v : Bool)
        (a b : Option Bool),
      r.parameters.get PARAM_RETURN_OLD = r.return_old.map ParamValue.bool ∧
      r.parameters.countKey PARAM_RETURN_OLD =
        (if r.return_old.isSome then 1 else 0) ∧
      (r.with_return_old (some v)).parameters.get PARAM_RETURN_OLD =
        some (ParamValue.bool v) ∧
      (r.with_return_old (some v)).parameters.countKey PARAM_RETURN_OLD
        = 1 ∧
      (r.with_return_old a).with_return_old b = r.with_return_old b) ∧
    (∀ (Old New : Type) (r : ReplaceDocument Old New) (v : Bool)
        (a b : Option Bool),
      r.parameters.get PARAM_RETURN_NEW = r.return_new.map ParamValue.bool ∧
      r.parameters.countKey PARAM_RETURN_NEW =
        (if r.return_new.isSome then 1 else 0) ∧
      (r.with_return_new (some v)).parameters.get PARAM_RETURN_NEW =
        some (ParamValue.bool v) ∧
      (r.with_return_new (some v)).parameters.countKey PARAM_RETURN_NEW
        = 1 ∧
      (r.with_return_new a).with_return_new b = r.with_return_new b) ∧
    (∀ (Upd Old New : Type) (u : UpdateDocument Upd Old New) (v : Bool)
        (a b : Option Bool),
      u.parameters.get PARAM_WAIT_FOR_SYNC =
        u.force_wait_for_sync.map ParamValue.bool ∧
      u.parameters.countKey PARAM_WAIT_FOR_SYNC =
        (if u.force_wait_for_sync.isSome then 1 else 0) ∧
      (u.with_force_wait_for_sync (some v)).parameters.get
          PARAM_WAIT_FOR_SYNC = some (ParamValue.bool v) ∧
      (u.with_force_wait_for_sync (some v)).parameters.countKey
          PARAM_WAIT_FOR_SYNC = 1 ∧
      (u.with_force_wait_for_sync a).with_force_wait_for_sync b =
        u.with_force_wait_for_sync b) ∧
    (∀ (Upd Old New : Type) (u : UpdateDocument Upd Old New) (v : Bool)
        (a b : Option Bool),
      u.parameters.get PARAM_IGNORE_REVISIONS =
        u.ignore_revisions.map ParamValue.bool ∧
      u.parameters.countKey PARAM_IGNORE_REVISIONS =
        (if u.ignore_revisions.isSome then 1 else 0) ∧
      (u.with_ignore_revisions (some v)).parameters.get
          PARAM_IGNORE_REVISIONS = some (ParamValue.bool v) ∧
      (u.with_ignore_revisions (some v)).parameters.countKey
          PARAM_IGNORE_REVISIONS = 1 ∧
      (u.with_ignore_revisions a).with_ignore_revisions b =
        u.with_ignore_revisions b) ∧
    (∀ (Upd Old New : Type) (u : UpdateDocument Upd Old New) (v : String)
        (a b : Option String),
      u.header.get HEADER_IF_MATCH = u.if_match.map ParamValue.str ∧
      u.header.countKey HEADER_IF_MATCH =
        (if u.if_match.isSome then 1 else 0) ∧
      (u.with_if_match (some v)).header.get HEADER_IF_MATCH =
        some (ParamValue.str v) ∧
      (u.with_if_match (some v)).header.countKey HEADER_IF_MATCH = 1 ∧
      (u.with_if_match a).with_if_match b = u.with_if_match b) ∧
    (∀ (Upd Old New : Type) (u : UpdateDocument Upd Old New) (v : Bool)
        (a b : Option Bool),
      u.parameters.get PARAM_KEEP_NULL = u.keep_none.map ParamValue.bool ∧
      u.parameters.countKey PARAM_KEEP_NULL =
        (if u.keep_none.isSome then 1 else 0) ∧
      (u.with_keep_none (some v)).parameters.get PARAM_KEEP_NULL =
        some (ParamValue.bool v) ∧
      (u.with_keep_none (some v)).parameters.countKey PARAM_KEEP_NULL = 1 ∧
      (u.with_keep_none a).with_keep_none b = u.with_keep_none b) ∧
    (∀ (Upd Old New : Type) (u : UpdateDocument Upd Old New) (v : Bool)
        (a b : Option Bool),
      u.parameters.get PARAM_MERGE_OBJECTS =
        u.merge_objects.map ParamValue.bool ∧
      u.parameters.countKey PARAM_MERGE_OBJECTS =
        (if u.merge_objects.isSome then 1 else 0) ∧
      (u.with_merge_objects (some v)).parameters.get PARAM_MERGE_OBJECTS =
        some (ParamValue.bool v) ∧
      (u.with_merge_objects (some v)).parameters.countKey
          PARAM_MERGE_OBJECTS = 1 ∧
      (u.with_merge_objects a).with_merge_objects b =
        u.with_merge_objects b) ∧
    (∀ (Upd Old New : Type) (u : UpdateDocument Upd Old New) (v : Bool)
        (a b : Option Bool),
      u.parameters.get PARAM_RETURN_OLD = u.return_old.map ParamValue.bool ∧
      u.parameters.countKey PARAM_RETURN_OLD =
        (if u.return_old.isSome then 1 else 0) ∧
      (u.with_return_old (some v)).parameters.get PARAM_RETURN_OLD =
        some (ParamValue.bool v) ∧
      (u.with_return_old (some v)).parameters.countKey PARAM_RETURN_OLD
        = 1 ∧
      (u.with_return_old a).with_return_old b = u.with_return_old b) ∧
    (∀ (Upd Old New : Type) (u : UpdateDocument Upd Old New) (v : Bool)
        (a b : Option Bool),
      u.parameters.get PARAM_RETURN_NEW = u.return_new.map ParamValue.bool ∧
      u.parameters.countKey PARAM_RETURN_NEW =
        (if u.return_new.isSome then 1 else 0) ∧
      (u.with_return_new (some v)).parameters.get PARAM_RETURN_NEW =
        some (ParamValue.bool v) ∧
      (u.with_return_new (some v)).parameters.countKey PARAM_RETURN_NEW
        = 1 ∧
      (u.with_return_new a).with_return_new b = u.with_return_new b) :=
  ⟨fun _ g _ _ _ => ⟨GetDocument.getDoc_header_get_if_match g, GetDocument.getDoc_header_count_if_match g,
      (GetDocument.getDoc_header_get_if_match _).trans rfl,
      (GetDocument.getDoc_header_count_if_match _).trans rfl, rfl⟩,
    fun _ g _ _ _ => ⟨GetDocument.getDoc_header_get_if_non_match g, GetDocument.getDoc_header_count_if_non_match g,
      (GetDocument.getDoc_header_get_if_non_match _).trans rfl,
      (GetDocument.getDoc_header_count_if_non_match _).trans rfl, rfl⟩,
    fun g _ _ _ => ⟨GetDocumentHeader.getHdr_header_get_if_match g, GetDocumentHeader.getHdr_header_count_if_match g,
      (GetDocumentHeader.getHdr_header_get_if_match _).trans rfl,
      (GetDocumentHeader.getHdr_header_count_if_match _).trans rfl, rfl⟩,
    fun g _ _ _ => ⟨GetDocumentHeader.getHdr_header_get_if_non_match g, GetDocumentHeader.getHdr_header_count_if_non_match g,
      (GetDocumentHeader.getHdr_header_get_if_non_match _).trans rfl,
      (GetDocumentHeader.getHdr_header_count_if_non_match _).trans rfl, rfl⟩,
    fun _ d _ _ _ => ⟨InsertDocument.insDoc_parameters_get_wait_for_sync d, InsertDocument.insDoc_parameters_count_wait_for_sync d,
      (InsertDocument.insDoc_parameters_get_wait_for_sync _).trans rfl,
      (InsertDocument.insDoc_parameters_count_wait_for_sync _).trans rfl, rfl⟩,
    fun _ d _ _ _ => ⟨InsertDocumentReturnNew.insDocNew_parameters_get_wait_for_sync d, InsertDocumentReturnNew.insDocNew_parameters_count_wait_for_sync d,
      (InsertDocumentReturnNew.insDocNew_parameters_get_wait_for_sync _).trans rfl,
      (InsertDocumentReturnNew.insDocNew_parameters_count_wait_for_sync _).trans rfl,
      rfl⟩,
    fun _ d _ _ _ => ⟨InsertDocuments.insDocs_parameters_get_wait_for_sync d, InsertDocuments.insDocs_parameters_count_wait_for_sync d,
      (InsertDocuments.insDocs_parameters_get_wait_for_sync _).trans rfl,
      (InsertDocuments.insDocs_parameters_count_wait_for_sync _).trans rfl, rfl⟩,
    fun _ d _ _ _ => ⟨InsertDocumentsReturnNew.insDocsNew_parameters_get_wait_for_sync d, InsertDocumentsReturnNew.insDocsNew_parameters_count_wait_for_sync d,
      (InsertDocumentsReturnNew.insDocsNew_parameters_get_wait_for_sync _).trans rfl,
      (InsertDocumentsReturnNew.insDocsNew_parameters_count_wait_for_sync _).trans rfl,
      rfl⟩,
    fun _ _ r _ _ _ => ⟨ReplaceDocument.repl_parameters_get_wait_for_sync r, ReplaceDocument.repl_parameters_count_wait_for_sync r,
      (ReplaceDocument.repl_parameters_get_wait_for_sync _).trans rfl,
      (ReplaceDocument.repl_parameters_count_wait_for_sync _).trans rfl, rfl⟩,
    fun _ _ r _ _ _ => ⟨ReplaceDocument.repl_parameters_get_ignore_revisions r, ReplaceDocument.repl_parameters_count_ignore_revisions r,
      (ReplaceDocument.repl_parameters_get_ignore_revisions _).trans rfl,
      (ReplaceDocument.repl_parameters_count_ignore_revisions _).trans rfl, rfl⟩,
    fun _ _ r _ _ _ => ⟨ReplaceDocument.repl_header_get_if_match r, ReplaceDocument.repl_header_count_if_match r,
      (ReplaceDocument.repl_header_get_if_match _).trans rfl,
      (ReplaceDocument.repl_header_count_if_match _).trans rfl, rfl⟩,
    fun _ _ r _ _ _ => ⟨ReplaceDocument.repl_parameters_get_return_old r, ReplaceDocument.repl_parameters_count_return_old r,
      (ReplaceDocument.repl_parameters_get_return_old _).trans rfl,
      (ReplaceDocument.repl_parameters_count_return_old _).trans rfl, rfl⟩,
    fun _ _ r _ _ _ => ⟨ReplaceDocument.repl_parameters_get_return_new r, ReplaceDocument.repl_parameters_count_return_new r,
      (ReplaceDocument.repl_parameters_get_return_new _).trans rfl,
      (ReplaceDocument.repl_parameters_count_return_new _).trans rfl, rfl⟩,
    fun _ _ _ u _ _ _ => ⟨UpdateDocument.upd_parameters_get_wait_for_sync u, UpdateDocument.upd_parameters_count_wait_for_sync u,
      (UpdateDocument.upd_parameters_get_wait_for_sync _).trans rfl,
      (UpdateDocument.upd_parameters_count_wait_for_sync _).trans rfl, rfl⟩,
    fun _ _ _ u _ _ _ => ⟨UpdateDocument.upd_parameters_get_ignore_revisions u, UpdateDocument.upd_parameters_count_ignore_revisions u,
      (UpdateDocument.upd_parameters_get_ignore_revisions _).trans rfl,
      (UpdateDocument.upd_parameters_count_ignore_revisions _).trans rfl, rfl⟩,
    fun _ _ _ u _ _ _ => ⟨UpdateDocument.upd_header_get_if_match u, UpdateDocument.upd_header_count_if_match u,
      (UpdateDocument.upd_header_get_if_match _).trans rfl,
      (UpdateDocument.upd_header_count_if_match _).trans rfl, rfl⟩,
    fun _ _ _ u _ _ _ => ⟨UpdateDocument.upd_parameters_get_keep_null u, UpdateDocument.upd_parameters_count_keep_null u,
      (UpdateDocument.upd_parameters_get_keep_null _).trans rfl,
      (UpdateDocument.upd_parameters_count_keep_null _).trans rfl, rfl⟩,
    fun _ _ _ u _ _ _ => ⟨UpdateDocument.upd_parameters_get_merge_objects u, UpdateDocument.upd_parameters_count_merge_objects u,
      (UpdateDocument.upd_parameters_get_merge_objects _).trans rfl,
      (UpdateDocument.upd_parameters_count_merge_objects _).trans rfl, rfl⟩,
    fun _ _ _ u _ _ _ => ⟨UpdateDocument.upd_parameters_get_return_old u, UpdateDocument.upd_parameters_count_return_old u,
      (UpdateDocument.upd_parameters_get_return_old _).trans rfl,
      (UpdateDocument.upd_parameters_count_return_old _).trans rfl, rfl⟩,
    fun _ _ _ u _ _ _ => ⟨UpdateDocument.upd_parameters_get_return_new u, UpdateDocument.upd_parameters_count_return_new u,
      (UpdateDocument.upd_parameters_get_return_new _).trans rfl,
      (UpdateDocument.upd_parameters_count_return_new _).trans rfl, rfl⟩⟩

/-- C3: each with_* modifier replaces exactly its one targeted optional
field with the given value and leaves every other field (required fields,
payload and all other optional fields) unchanged; when the same modifier
is applied several times the field holds the value of the last call. -/
theorem claim_C3_modifier_frame_effect :
    (∀ (T : Type) (g : GetDocument T) (v a b : Option String),
      (g.with_if_match v).if_match = v ∧
      (g.with_if_match v).id = g.id ∧
      (g.with_if_match v).if_non_match = g.if_non_match ∧
      (g.with_if_match a).with_if_match b = g.with_if_match b) ∧
    (∀ (T : Type) (g : GetDocument T) (v a b : Option String),
      (g.with_if_non_match v).if_non_match = v ∧
      (g.with_if_non_match v).id = g.id ∧
      (g.with_if_non_match v).if_match = g.if_match ∧
      (g.with_if_non_match a).with_if_non_match b = g.with_if_non_match b) ∧
    (∀ (g : GetDocumentHeader) (v a b : Option String),
      (g.with_if_match v).if_match = v ∧
      (g.with_if_match v).id = g.id ∧
      (g.with_if_match v).if_non_match = g.if_non_match ∧
      (g.with_if_match a).with_if_match b = g.with_if_match b) ∧
    (∀ (g : GetDocumentHeader) (v a b : Option String),
      (g.with_if_non_match v).if_non_match = v ∧
      (g.with_if_non_match v).id = g.id ∧
      (g.with_if_non_match v).if_match = g.if_match ∧
      (g.with_if_non_match a).with_if_non_match b = g.with_if_non_match b) ∧
    (∀ (T : Type) (d : InsertDocument T) (v a b : Option Bool),
      (d.with_force_wait_for_sync v).force_wait_for_sync = v ∧
      (d.with_force_wait_for_sync v).collection_name = d.collection_name ∧
      (d.with_force_wait_for_sync v).document = d.document ∧
      (d.with_force_wait_for_sync a).with_force_wait_for_sync b = d.with_force_wait_for_sync b) ∧
    (∀ (T : Type) (d : InsertDocumentReturnNew T) (v a b : Option Bool),
      (d.with_force_wait_for_sync v).force_wait_for_sync = v ∧
      (d.with_force_wait_for_sync v).collection_name = d.collection_name ∧
      (d.with_force_wait_for_sync v).document = d.document ∧
      (d.with_force_wait_for_sync a).with_force_wait_for_sync b = d.with_force_wait_for_sync b) ∧
    (∀ (T : Type) (d : InsertDocuments T) (v a b : Option Bool),
      (d.with_force_wait_for_sync v).force_wait_for_sync = v ∧
      (d.with_force_wait_for_sync v).collection_name = d.collection_name ∧
      (d.with_force_wait_for_sync v).documents = d.documents ∧
      (d.with_force_wait_for_sync a).with_force_wait_for_sync b = d.with_force_wait_for_sync b) ∧
    (∀ (T : Type) (d : InsertDocumentsReturnNew T) (v a b : Option Bool),
      (d.with_force_wait_for_sync v).force_wait_for_sync = v ∧
      (d.with_force_wait_for_sync v).collection_name = d.collection_name ∧
      (d.with_force_wait_for_sync v).documents = d.documents ∧
      (d.with_force_wait_for_sync a).with_force_wait_for_sync b = d.with_force_wait_for_sync b) ∧
    (∀ (Old New : Type) (r : ReplaceDocument Old New) (v a b : Option Bool),
      (r.with_force_wait_for_sync v).force_wait_for_sync = v ∧
      (r.with_force_wait_for_sync v).document_id = r.document_id ∧
      (r.with_force_wait_for_sync v).new_document = r.new_document ∧
      (r.with_force_wait_for_sync v).ignore_revisions = r.ignore_revisions ∧
      (r.with_force_wait_for_sync v).if_match = r.if_match ∧
      (r.with_force_wait_for_sync v).return_old = r.return_old ∧
      (r.with_force_wait_for_sync v).return_new = r.return_new ∧
      (r.with_force_wait_for_sync a).with_force_wait_for_sync b = r.with_force_wait_for_sync b) ∧
    (∀ (Old New : Type) (r : ReplaceDocument Old New) (v a b : Option Bool),
      (r.with_ignore_revisions v).ignore_revisions = v ∧
      (r.with_ignore_revisions v).document_id = r.document_id ∧
      (r.with_ignore_revisions v).new_document = r.new_document ∧
      (r.with_ignore_revisions v).force_wait_for_sync = r.force_wait_for_sync ∧
      (r.with_ignore_revisions v).if_match = r.if_match ∧
      (r.with_ignore_revisions v).return_old = r.return_old ∧
      (r.with_ignore_revisions v).return_new = r.return_new ∧
      (r.with_ignore_revisions a).with_ignore_revisions b = r.with_ignore_revisions b) ∧
    (∀ (Old New : Type) (r : ReplaceDocument Old New) (v a b : Option String),
      (r.with_if_match v).if_match = v ∧
      (r.with_if_match v).document_id = r.document_id ∧
      (r.with_if_match v).new_document = r.new_document ∧
      (r.with_if_match v).force_wait_for_sync = r.force_wait_for_sync ∧
      (r.with_if_match v).ignore_revisions = r.ignore_revisions ∧
      (r.with_if_match v).return_old = r.return_old ∧
      (r.with_if_match v).return_new = r.return_new ∧
      (r.with_if_match a).with_if_match b = r.with_if_match b) ∧
    (∀ (Old New : Type) (r : ReplaceDocument Old New) (v a b : Option Bool),
      (r.with_return_old v).return_old = v ∧
      (r.with_return_old v).document_id = r.document_id ∧
      (r.with_return_old v).new_document = r.new_document ∧
      (r.with_return_old v).force_wait_for_sync = r.force_wait_for_sync ∧
      (r.with_return_old v).ignore_revisions = r.ignore_revisions ∧
      (r.with_return_old v).if_match = r.if_match ∧
      (r.with_return_old v).return_new = r.return_new ∧
      (r.with_return_old a).with_return_old b = r.with_return_old b) ∧
    (∀ (Old New : Type) (r : ReplaceDocument Old New) (v a b : Option Bool),
      (r.with_return_new v).return_new = v ∧
      (r.with_return_new v).document_id = r.document_id ∧
      (r.with_return_new v).new_document = r.new_document ∧
      (r.with_return_new v).force_wait_for_sync = r.force_wait_for_sync ∧
      (r.with_return_new v).ignore_revisions = r.ignore_revisions ∧
      (r.with_return_new v).if_match = r.if_match ∧
      (r.with_return_new v).return_old = r.return_old ∧
      (r.with_return_new a).with_return_new b = r.with_return_new b) ∧
    (∀ (Upd Old New : Type) (u : UpdateDocument Upd Old New) (v a b : Option Bool),
      (u.with_force_wait_for_sync v).force_wait_for_sync = v ∧
      (u.with_force_wait_for_sync v).document_id = u.document_id ∧
      (u.with_force_wait_for_sync v).update = u.update ∧
      (u.with_force_wait_for_sync v).ignore_revisions = u.ignore_revisions ∧
      (u.with_force_wait_for_sync v).if_match = u.if_match ∧
      (u.with_force_wait_for_sync v).keep_none = u.keep_none ∧
      (u.with_force_wait_for_sync v).merge_objects = u.merge_objects ∧
      (u.with_force_wait_for_sync v).return_old = u.return_old ∧
      (u.with_force_wait_for_sync v).return_new = u.return_new ∧
      (u.with_force_wait_for_sync a).with_force_wait_for_sync b = u.with_force_wait_for_sync b) ∧
    (∀ (Upd Old New : Type) (u : UpdateDocument Upd Old New) (v a b : Option Bool),
      (u.with_ignore_revisions v).ignore_revisions = v ∧
      (u.with_ignore_revisions v).document_id = u.document_id ∧
      (u.with_ignore_revisions v).update = u.update ∧
      (u.with_ignore_revisions v).force_wait_for_sync = u.force_wait_for_sync ∧
      (u.with_ignore_revisions v).if_match = u.if_match ∧
      (u.with_ignore_revisions v).keep_none = u.keep_none ∧
      (u.with_ignore_revisions v).merge_objects = u.merge_objects ∧
      (u.with_ignore_revisions v).return_old = u.return_old ∧
      (u.with_ignore_revisions v).return_new = u.return_new ∧
      (u.with_ignore_revisions a).with_ignore_revisions b = u.with_ignore_revisions b) ∧
    (∀ (Upd Old New : Type) (u : UpdateDocument Upd Old New) (v a b : Option String),
      (u.with_if_match v).if_match = v ∧
      (u.with_if_match v).document_id = u.document_id ∧
      (u.with_if_match v).update = u.update ∧
      (u.with_if_match v).force_wait_for_sync = u.force_wait_for_sync ∧
      (u.with_if_match v).ignore_revisions = u.ignore_revisions ∧
      (u.with_if_match v).keep_none = u.keep_none ∧
      (u.with_if_match v).merge_objects = u.merge_objects ∧
      (u.with_if_match v).return_old = u.return_old ∧
      (u.with_if_match v).return_new = u.return_new ∧
      (u.with_if_match a).with_if_match b = u.with_if_match b) ∧
    (∀ (Upd Old New : Type) (u : UpdateDocument Upd Old New) (v a b : Option Bool),
      (u.with_keep_none v).keep_none = v ∧
      (u.with_keep_none v).document_id = u.document_id ∧
      (u.with_keep_none v).update = u.update ∧
      (u.with_keep_none v).force_wait_for_sync = u.force_wait_for_sync ∧
      (u.with_keep_none v).ignore_revisions = u.ignore_revisions ∧
      (u.with_keep_none v).if_match = u.if_match ∧
      (u.with_keep_none v).merge_objects = u.merge_objects ∧
      (u.with_keep_none v).return_old = u.return_old ∧
      (u.with_keep_none v).return_new = u.return_new ∧
      (u.with_keep_none a).with_keep_none b = u.with_keep_none b) ∧
    (∀ (Upd Old New : Type) (u : UpdateDocument Upd Old New) (v a b : Option Bool),
      (u.with_merge_objects v).merge_objects = v ∧
      (u.with_merge_objects v).document_id = u.document_id ∧
      (u.with_merge_objects v).update = u.update ∧
      (u.with_merge_objects v).force_wait_for_sync = u.force_wait_for_sync ∧
      (u.with_merge_objects v).ignore_revisions = u.ignore_revisions ∧
      (u.with_merge_objects v).if_match = u.if_match ∧
      (u.with_merge_objects v).keep_none = u.keep_none ∧
      (u.with_merge_objects v).return_old = u.return_old ∧
      (u.with_merge_objects v).return_new = u.return_new ∧
      (u.with_merge_objects a).with_merge_objects b = u.with_merge_objects b) ∧
    (∀ (Upd Old New : Type) (u : UpdateDocument Upd Old New) (v a b : Option Bool),
      (u.with_return_old v).return_old = v ∧
      (u.with_return_old v).document_id = u.document_id ∧
      (u.with_return_old v).update = u.update ∧
      (u.with_return_old v).force_wait_for_sync = u.force_wait_for_sync ∧
      (u.with_return_old v).ignore_revisions = u.ignore_revisions ∧
      (u.with_return_old v).if_match = u.if_match ∧
      (u.with_return_old v).keep_none = u.keep_none ∧
      (u.with_return_old v).merge_objects = u.merge_objects ∧
      (u.with_return_old v).return_new = u.return_new ∧
      (u.with_return_old a).with_return_old b = u.with_return_old b) ∧
    (∀ (Upd Old New : Type) (u : UpdateDocument Upd Old New) (v a b : Option Bool),
      (u.with_return_new v).return_new = v ∧
      (u.with_return_new v).document_id = u.document_id ∧
      (u.with_return_new v).update = u.update ∧
      (u.with_return_new v).force_wait_for_sync = u.force_wait_for_sync ∧
      (u.with_return_new v).ignore_revisions = u.ignore_revisions ∧
      (u.with_return_new v).if_match = u.if_match ∧
      (u.with_return_new v).keep_none = u.keep_none ∧
      (u.with_return_new v).merge_objects = u.merge_objects ∧
      (u.with_return_new v).return_old = u.return_old ∧
      (u.with_return_new a).with_return_new b = u.with_return_new b) :=
  ⟨fun _ _ _ _ _ => ⟨rfl, rfl, rfl, rfl⟩,
    fun _ _ _ _ _ => ⟨rfl, rfl, rfl, rfl⟩,
    fun _ _ _ _ => ⟨rfl, rfl, rfl, rfl⟩,
    fun _ _ _ _ => ⟨rfl, rfl, rfl, rfl⟩,
    fun _ _ _ _ _ => ⟨rfl, rfl, rfl, rfl⟩,
    fun _ _ _ _ _ => ⟨rfl, rfl, rfl, rfl⟩,
    fun _ _ _ _ _ => ⟨rfl, rfl, rfl, rfl⟩,
    fun _ _ _ _ _ => ⟨rfl, rfl, rfl, rfl⟩,
    fun _ _ _ _ _ _ => ⟨rfl, rfl, rfl, rfl, rfl, rfl, rfl, rfl⟩,
    fun _ _ _ _ _ _ => ⟨rfl, rfl, rfl, rfl, rfl, rfl, rfl, rfl⟩,
    fun _ _ _ _ _ _ => ⟨rfl, rfl, rfl, rfl, rfl, rfl, rfl, rfl⟩,
    fun _ _ _ _ _ _ => ⟨rfl, rfl, rfl, rfl, rfl, rfl, rfl, rfl⟩,
    fun _ _ _ _ _ _ => ⟨rfl, rfl, rfl, rfl, rfl, rfl, rfl, rfl⟩,
    fun _ _ _ _ _ _ _ => ⟨rfl, rfl, rfl, rfl, rfl, rfl, rfl, rfl, rfl, rfl⟩,
    fun _ _ _ _ _ _ _ => ⟨rfl, rfl, rfl, rfl, rfl, rfl, rfl, rfl, rfl, rfl⟩,
    fun _ _ _ _ _ _ _ => ⟨rfl, rfl, rfl, rfl, rfl, rfl, rfl, rfl, rfl, rfl⟩,
    fun _ _ _ _ _ _ _ => ⟨rfl, rfl, rfl, rfl, rfl, rfl, rfl, rfl, rfl, rfl⟩,
    fun _ _ _ _ _ _ _ => ⟨rfl, rfl, rfl, rfl, rfl, rfl, rfl, rfl, rfl, rfl⟩,
    fun _ _ _ _ _ _ _ => ⟨rfl, rfl, rfl, rfl, rfl, rfl, rfl, rfl, rfl, rfl⟩,
    fun _ _ _ _ _ _ _ => ⟨rfl, rfl, rfl, rfl, rfl, rfl, rfl, rfl, rfl, rfl⟩⟩

/-- C10: calling any with_* modifier with none resets that one optional
field back to the unset state even if a value was set earlier: afterwards
the getter returns none, the produced parameters/header mapping contains
no corresponding entry, and a set-then-reset chain from a freshly
constructed descriptor equals the fresh descriptor itself. -/
theorem claim_C10_modifier_none_resets :
    (∀ (T : Type) (g : GetDocument T) (v : String) (id : DocumentId),
      (g.with_if_match none).if_match = none ∧
      (g.with_if_match none).header.get HEADER_IF_MATCH = none ∧
      (g.with_if_match none).header.countKey HEADER_IF_MATCH = 0 ∧
      (g.with_if_match (some v)).with_if_match none = g.with_if_match none ∧
      ((GetDocument.new T id).with_if_match (some v)).with_if_match none = GetDocument.new T id) ∧
    (∀ (T : Type) (g : GetDocument T) (v : String) (id : DocumentId),
      (g.with_if_non_match none).if_non_match = none ∧
      (g.with_if_non_match none).header.get HEADER_IF_NON_MATCH = none ∧
      (g.with_if_non_match none).header.countKey HEADER_IF_NON_MATCH = 0 ∧
      (g.with_if_non_match (some v)).with_if_non_match none = g.with_if_non_match none ∧
      ((GetDocument.new T id).with_if_non_match (some v)).with_if_non_match none = GetDocument.new T id) ∧
    (∀ (g : GetDocumentHeader) (v : String) (id : DocumentId),
      (g.with_if_match none).if_match = none ∧
      (g.with_if_match none).header.get HEADER_IF_MATCH = none ∧
      (g.with_if_match none).header.countKey HEADER_IF_MATCH = 0 ∧
      (g.with_if_match (some v)).with_if_match none = g.with_if_match none ∧
      ((GetDocumentHeader.new id).with_if_match (some v)).with_if_match none = GetDocumentHeader.new id) ∧
    (∀ (g : GetDocumentHeader) (v : String) (id : DocumentId),
      (g.with_if_non_match none).if_non_match = none ∧
      (g.with_if_non_match none).header.get HEADER_IF_NON_MATCH = none ∧
      (g.with_if_non_match none).header.countKey HEADER_IF_NON_MATCH = 0 ∧
      (g.with_if_non_match (some v)).with_if_non_match none = g.with_if_non_match none ∧
      ((GetDocumentHeader.new id).with_if_non_match (some v)).with_if_non_match none = GetDocumentHeader.new id) ∧
    (∀ (T : Type) (d : InsertDocument T) (v : Bool) (c : String) (doc : NewDocument T),
      (d.with_force_wait_for_sync none).force_wait_for_sync = none ∧
      (d.with_force_wait_for_sync none).parameters.get PARAM_WAIT_FOR_SYNC = none ∧
      (d.with_force_wait_for_sync none).parameters.countKey PARAM_WAIT_FOR_SYNC = 0 ∧
      (d.with_force_wait_for_sync (some v)).with_force_wait_for_sync none = d.with_force_wait_for_sync none ∧
      ((InsertDocument.new c doc).with_force_wait_for_sync (some v)).with_force_wait_for_sync none = InsertDocument.new c doc) ∧
    (∀ (T : Type) (d : InsertDocumentReturnNew T) (v : Bool) (c : String) (doc : NewDocument T),
      (d.with_force_wait_for_sync none).force_wait_for_sync = none ∧
      (d.with_force_wait_for_sync none).parameters.get PARAM_WAIT_FOR_SYNC = none ∧
      (d.with_force_wait_for_sync none).parameters.countKey PARAM_WAIT_FOR_SYNC = 0 ∧
      (d.with_force_wait_for_sync (some v)).with_force_wait_for_sync none = d.with_force_wait_for_sync none ∧
      ((InsertDocumentReturnNew.new c doc).with_force_wait_for_sync (some v)).with_force_wait_for_sync none = InsertDocumentReturnNew.new c doc) ∧
    (∀ (T : Type) (d : InsertDocuments T) (v : Bool) (c : String) (docs : List (NewDocument T)),
      (d.with_force_wait_for_sync none).force_wait_for_sync = none ∧
      (d.with_force_wait_for_sync none).parameters.get PARAM_WAIT_FOR_SYNC = none ∧
      (d.with_force_wait_for_sync none).parameters.countKey PARAM_WAIT_FOR_SYNC = 0 ∧
      (d.with_force_wait_for_sync (some v)).with_force_wait_for_sync none = d.with_force_wait_for_sync none ∧
      ((InsertDocuments.new c docs).with_force_wait_for_sync (some v)).with_force_wait_for_sync none = InsertDocuments.new c docs) ∧
    (∀ (T : Type) (d : InsertDocumentsReturnNew T) (v : Bool) (c : String) (docs : List (NewDocument T)),
      (d.with_force_wait_for_sync none).force_wait_for_sync = none ∧
      (d.with_force_wait_for_sync none).parameters.get PARAM_WAIT_FOR_SYNC = none ∧
      (d.with_force_wait_for_sync none).parameters.countKey PARAM_WAIT_FOR_SYNC = 0 ∧
      (d.with_force_wait_for_sync (some v)).with_force_wait_for_sync none = d.with_force_wait_for_sync none ∧
      ((InsertDocumentsReturnNew.new c docs).with_force_wait_for_sync (some v)).with_force_wait_for_sync none = InsertDocumentsReturnNew.new c docs) ∧
    (∀ (Old New : Type) (r : ReplaceDocument Old New) (v : Bool) (id : DocumentId) (nd : DocumentUpdate New),
      (r.with_force_wait_for_sync none).force_wait_for_sync = none ∧
      (r.with_force_wait_for_sync none).parameters.get PARAM_WAIT_FOR_SYNC = none ∧
      (r.with_force_wait_for_sync none).parameters.countKey PARAM_WAIT_FOR_SYNC = 0 ∧
      (r.with_force_wait_for_sync (some v)).with_force_wait_for_sync none = r.with_force_wait_for_sync none ∧
      ((ReplaceDocument.new Old id nd).with_force_wait_for_sync (some v)).with_force_wait_for_sync none = ReplaceDocument.new Old id nd) ∧
    (∀ (Old New : Type) (r : ReplaceDocument Old New) (v : Bool) (id : DocumentId) (nd : DocumentUpdate New),
      (r.with_ignore_revisions none).ignore_revisions = none ∧
      (r.with_ignore_revisions none).parameters.get PARAM_IGNORE_REVISIONS = none ∧
      (r.with_ignore_revisions none).parameters.countKey PARAM_IGNORE_REVISIONS = 0 ∧
      (r.with_ignore_revisions (some v)).with_ignore_revisions none = r.with_ignore_revisions none ∧
      ((ReplaceDocument.new Old id nd).with_ignore_revisions (some v)).with_ignore_revisions none = ReplaceDocument.new Old id nd) ∧
    (∀ (Old New : Type) (r : ReplaceDocument Old New) (v : String) (id : DocumentId) (nd : DocumentUpdate New),
      (r.with_if_match none).if_match = none ∧
      (r.with_if_match none).header.get HEADER_IF_MATCH = none ∧
      (r.with_if_match none).header.countKey HEADER_IF_MATCH = 0 ∧
      (r.with_if_match (some v)).with_if_match none = r.with_if_match none ∧
      ((ReplaceDocument.new Old id nd).with_if_match (some v)).with_if_match none = ReplaceDocument.new Old id nd) ∧
    (∀ (Old New : Type) (r : ReplaceDocument Old New) (v : Bool) (id : DocumentId) (nd : DocumentUpdate New),
      (r.with_return_old none).return_old = none ∧
      (r.with_return_old none).parameters.get PARAM_RETURN_OLD = none ∧
      (r.with_return_old none).parameters.countKey PARAM_RETURN_OLD = 0 ∧
      (r.with_return_old (some v)).with_return_old none = r.with_return_old none ∧
      ((ReplaceDocument.new Old id nd).with_return_old (some v)).with_return_old none = ReplaceDocument.new Old id nd) ∧
    (∀ (Old New : Type) (r : ReplaceDocument Old New) (v : Bool) (id : DocumentId) (nd : DocumentUpdate New),
      (r.with_return_new none).return_new = none ∧
      (r.with_return_new none).parameters.get PARAM_RETURN_NEW = none ∧
      (r.with_return_new none).parameters.countKey PARAM_RETURN_NEW = 0 ∧
      (r.with_return_new (some v)).with_return_new none = r.with_return_new none ∧
      ((ReplaceDocument.new Old id nd).with_return_new (some v)).with_return_new none = ReplaceDocument.new Old id nd) ∧
    (∀ (Upd Old New : Type) (u : UpdateDocument Upd Old New) (v : Bool) (id : DocumentId) (upd : DocumentUpdate Upd),
      (u.with_force_wait_for_sync none).force_wait_for_sync = none ∧
      (u.with_force_wait_for_sync none).parameters.get PARAM_WAIT_FOR_SYNC = none ∧
      (u.with_force_wait_for_sync none).parameters.countKey PARAM_WAIT_FOR_SYNC = 0 ∧
      (u.with_force_wait_for_sync (some v)).with_force_wait_for_sync none = u.with_force_wait_for_sync none ∧
      ((UpdateDocument.new Old New id upd).with_force_wait_for_sync (some v)).with_force_wait_for_sync none = UpdateDocument.new Old New id upd) ∧
    (∀ (Upd Old New : Type) (u : UpdateDocument Upd Old New) (v : Bool) (id : DocumentId) (upd : DocumentUpdate Upd),
      (u.with_ignore_revisions none).ignore_revisions = none ∧
      (u.with_ignore_revisions none).parameters.get PARAM_IGNORE_REVISIONS = none ∧
      (u.with_ignore_revisions none).parameters.countKey PARAM_IGNORE_REVISIONS = 0 ∧
      (u.with_ignore_revisions (some v)).with_ignore_revisions none = u.with_ignore_revisions none ∧
      ((UpdateDocument.new Old New id upd).with_ignore_revisions (some v)).with_ignore_revisions none = UpdateDocument.new Old New id upd) ∧
    (∀ (Upd Old New : Type) (u : UpdateDocument Upd Old New) (v : String) (id : DocumentId) (upd : DocumentUpdate Upd),
      (u.with_if_match none).if_match = none ∧
      (u.with_if_match none).header.get HEADER_IF_MATCH = none ∧
      (u.with_if_match none).header.countKey HEADER_IF_MATCH = 0 ∧
      (u.with_if_match (some v)).with_if_match none = u.with_if_match none ∧
      ((UpdateDocument.new Old New id upd).with_if_match (some v)).with_if_match none = UpdateDocument.new Old New id upd) ∧
    (∀ (Upd Old New : Type) (u : UpdateDocument Upd Old New) (v : Bool) (id : DocumentId) (upd : DocumentUpdate Upd),
      (u.with_keep_none none).keep_none = none ∧
      (u.with_keep_none none).parameters.get PARAM_KEEP_NULL = none ∧
      (u.with_keep_none none).parameters.countKey PARAM_KEEP_NULL = 0 ∧
      (u.with_keep_none (some v)).with_keep_none none = u.with_keep_none none ∧
      ((UpdateDocument.new Old New id upd).with_keep_none (some v)).with_keep_none none = UpdateDocument.new Old New id upd) ∧
    (∀ (Upd Old New : Type) (u : UpdateDocument Upd Old New) (v : Bool) (id : DocumentId) (upd : DocumentUpdate Upd),
      (u.with_merge_objects none).merge_objects = none ∧
      (u.with_merge_objects none).parameters.get PARAM_MERGE_OBJECTS = none ∧
      (u.with_merge_objects none).parameters.countKey PARAM_MERGE_OBJECTS = 0 ∧
      (u.with_merge_objects (some v)).with_merge_objects none = u.with_merge_objects none ∧
      ((UpdateDocument.new Old New id upd).with_merge_objects (some v)).with_merge_objects none = UpdateDocument.new Old New id upd) ∧
    (∀ (Upd Old New : Type) (u : UpdateDocument Upd Old New) (v : Bool) (id : DocumentId) (upd : DocumentUpdate Upd),
      (u.with_return_old none).return_old = none ∧
      (u.with_return_old none).parameters.get PARAM_RETURN_OLD = none ∧
      (u.with_return_old none).parameters.countKey PARAM_RETURN_OLD = 0 ∧
      (u.with_return_old (some v)).with_return_old none = u.with_return_old none ∧
      ((UpdateDocument.new Old New id upd).with_return_old (some v)).with_return_old none = UpdateDocument.new Old New id upd) ∧
    (∀ (Upd Old New : Type) (u : UpdateDocument Upd Old New) (v : Bool) (id : DocumentId) (upd : DocumentUpdate Upd),
      (u.with_return_new none).return_new = none ∧
      (u.with_return_new none).parameters.get PARAM_RETURN_NEW = none ∧
      (u.with_return_new none).parameters.countKey PARAM_RETURN_NEW = 0 ∧
      (u.with_return_new (some v)).with_return_new none = u.with_return_new none ∧
      ((UpdateDocument.new Old New id upd).with_return_new (some v)).with_return_new none = UpdateDocument.new Old New id upd) :=
  ⟨fun _ _ _ _ => ⟨rfl, (GetDocument.getDoc_header_get_if_match _).trans rfl, (GetDocument.getDoc_header_count_if_match _).trans rfl, rfl, rfl⟩,
    fun _ _ _ _ => ⟨rfl, (GetDocument.getDoc_header_get_if_non_match _).trans rfl, (GetDocument.getDoc_header_count_if_non_match _).trans rfl, rfl, rfl⟩,
    fun _ _ _ => ⟨rfl, (GetDocumentHeader.getHdr_header_get_if_match _).trans rfl, (GetDocumentHeader.getHdr_header_count_if_match _).trans rfl, rfl, rfl⟩,
    fun _ _ _ => ⟨rfl, (GetDocumentHeader.getHdr_header_get_if_non_match _).trans rfl, (GetDocumentHeader.getHdr_header_count_if_non_match _).trans rfl, rfl, rfl⟩,
    fun _ _ _ _ _ => ⟨rfl, (InsertDocument.insDoc_parameters_get_wait_for_sync _).trans rfl, (InsertDocument.insDoc_parameters_count_wait_for_sync _).trans rfl, rfl, rfl⟩,
    fun _ _ _ _ _ => ⟨rfl, (InsertDocumentReturnNew.insDocNew_parameters_get_wait_for_sync _).trans rfl, (InsertDocumentReturnNew.insDocNew_parameters_count_wait_for_sync _).trans rfl, rfl, rfl⟩,
    fun _ _ _ _ _ => ⟨rfl, (InsertDocuments.insDocs_parameters_get_wait_for_sync _).trans rfl, (InsertDocuments.insDocs_parameters_count_wait_for_sync _).trans rfl, rfl, rfl⟩,
    fun _ _ _ _ _ => ⟨rfl, (InsertDocumentsReturnNew.insDocsNew_parameters_get_wait_for_sync _).trans rfl, (InsertDocumentsReturnNew.insDocsNew_parameters_count_wait_for_sync _).trans rfl, rfl, rfl⟩,
    fun _ _ _ _ _ _ => ⟨rfl, (ReplaceDocument.repl_parameters_get_wait_for_sync _).trans rfl, (ReplaceDocument.repl_parameters_count_wait_for_sync _).trans rfl, rfl, rfl⟩,
    fun _ _ _ _ _ _ => ⟨rfl, (ReplaceDocument.repl_parameters_get_ignore_revisions _).trans rfl, (ReplaceDocument.repl_parameters_count_ignore_revisions _).trans rfl, rfl, rfl⟩,
    fun _ _ _ _ _ _ => ⟨rfl, (ReplaceDocument.repl_header_get_if_match _).trans rfl, (ReplaceDocument.repl_header_count_if_match _).trans rfl, rfl, rfl⟩,
    fun _ _ _ _ _ _ => ⟨rfl, (ReplaceDocument.repl_parameters_get_return_old _).trans rfl, (ReplaceDocument.repl_parameters_count_return_old _).trans rfl, rfl, rfl⟩,
    fun _ _ _ _ _ _ => ⟨rfl, (ReplaceDocument.repl_parameters_get_return_new _).trans rfl, (ReplaceDocument.repl_parameters_count_return_new _).trans rfl, rfl, rfl⟩,
    fun _ _ _ _ _ _ _ => ⟨rfl, (UpdateDocument.upd_parameters_get_wait_for_sync _).trans rfl, (UpdateDocument.upd_parameters_count_wait_for_sync _).trans rfl, rfl, rfl⟩,
    fun _ _ _ _ _ _ _ => ⟨rfl, (UpdateDocument.upd_parameters_get_ignore_revisions _).trans rfl, (UpdateDocument.upd_parameters_count_ignore_revisions _).trans rfl, rfl, rfl⟩,
    fun _ _ _ _ _ _ _ => ⟨rfl, (UpdateDocument.upd_header_get_if_match _).trans rfl, (UpdateDocument.upd_header_count_if_match _).trans rfl, rfl, rfl⟩,
    fun _ _ _ _ _ _ _ => ⟨rfl, (UpdateDocument.upd_parameters_get_keep_null _).trans rfl, (UpdateDocument.upd_parameters_count_keep_null _).trans rfl, rfl, rfl⟩,
    fun _ _ _ _ _ _ _ => ⟨rfl, (UpdateDocument.upd_parameters_get_merge_objects _).trans rfl, (UpdateDocument.upd_parameters_count_merge_objects _).trans rfl, rfl, rfl⟩,
    fun _ _ _ _ _ _ _ => ⟨rfl, (UpdateDocument.upd_parameters_get_return_old _).trans rfl, (UpdateDocument.upd_parameters_count_return_old _).trans rfl, rfl, rfl⟩,
    fun _ _ _ _ _ _ _ => ⟨rfl, (UpdateDocument.upd_parameters_get_return_new _).trans rfl, (UpdateDocument.upd_parameters_count_return_new _).trans rfl, rfl, rfl⟩⟩

end ArangoDoc
